import Mathlib

/-
Verification of the Fischer-Koch S surface pipeline.

The pipeline (fischer_koch_s.py) samples the implicit trivariate field
cos(2x)·sin(y)·cos(z) + cos(2y)·sin(z)·cos(x) + cos(2z)·sin(x)·cos(y)
on a uniform lattice, smooths the sampled volume with a Gaussian filter
(sigma fixed at 0.5), extracts the isosurface with marching cubes, and
translates the resulting vertices by the lower bound of the sampled box.

Scalar samples are modelled over the real numbers.  The grid sampler, the
coordinate mapper and the surface-generation driver are translated directly
from the Python source.  The Gaussian smoother and the marching-cubes
extractor are delegated by the source to external libraries (scipy.ndimage,
skimage.measure), so they are modelled from the specification (sections 4.3
and 4.4): a separable three-pass Gaussian convolution with symmetric
boundary handling, and the classic 256-entry marching-cubes table with
clamped linear edge interpolation.
-/

/-- Source: `fischer_koch_s(x, y, z)` (fischer_koch_s.py, lines 20-40).
Evaluates the Fischer-Koch S implicit equation at a point. -/
noncomputable def fischer_koch_s (x y z : ℝ) : ℝ :=
  Real.cos (2 * x) * Real.sin y * Real.cos z
    + Real.cos (2 * y) * Real.sin z * Real.cos x
    + Real.cos (2 * z) * Real.sin x * Real.cos y

/-- Source: `np.linspace(bounds[0], bounds[1], resolution)` (lines 64-66):
`n` evenly spaced coordinates from `lo` to `hi` inclusive; the `i`-th
coordinate is `lo + i * (hi - lo) / (n - 1)`. -/
noncomputable def linspace (lo hi : ℝ) (n : ℕ) (i : ℕ) : ℝ :=
  lo + (i : ℝ) * ((hi - lo) / ((n : ℝ) - 1))

/-- A dense scalar volume: cube side `n` and the sample at each index
triple `(i, j, k)` (meaningful for indices below `n`). -/
structure ScalarVolume where
  n : ℕ
  val : ℕ → ℕ → ℕ → ℝ

/-- The samples of a volume flattened in C order (`idx = i*n² + j*n + k`),
as a list with `n³` entries. -/
noncomputable def ScalarVolume.entries (v : ScalarVolume) : List ℝ :=
  (List.range (v.n ^ 3)).map fun idx =>
    v.val (idx / v.n ^ 2) (idx / v.n % v.n) (idx % v.n)

/-- Source: lines 64-73: evaluate the field on the meshgrid of the
`resolution` linspace coordinates (indexing='ij'), so the sample at
`(i, j, k)` is the field at `(x_i, x_j, x_k)`. -/
noncomputable def sampleVolume (resolution : ℕ) (lo hi : ℝ) : ScalarVolume :=
  ⟨resolution, fun i j k =>
    fischer_koch_s (linspace lo hi resolution i) (linspace lo hi resolution j)
      (linspace lo hi resolution k)⟩

/-- Source: `x[1] - x[0]` (line 81), the per-axis spacing handed to the
marching-cubes extractor. -/
noncomputable def axisSpacing (resolution : ℕ) (lo hi : ℝ) : ℝ :=
  linspace lo hi resolution 1 - linspace lo hi resolution 0

/-- Modelled from the spec: the truncation radius of the discrete Gaussian
kernel (the scipy default truncates at 4 standard deviations, rounding to
an integer radius).  For sigma = 0.5 the radius is 2; for sigma = 0 it is 0. -/
noncomputable def kernelRadius (sigma : ℝ) : ℕ :=
  (⌊4 * sigma + 1 / 2⌋ : ℤ).toNat

/-- Modelled from the spec (section 4.3): the unnormalised Gaussian kernel
weight at integer offset `d`. -/
noncomputable def gweight (sigma : ℝ) (d : ℤ) : ℝ :=
  Real.exp (-((d : ℝ) ^ 2) / (2 * sigma ^ 2))

/-- Modelled from the spec (section 4.3): the normalisation constant of the
truncated Gaussian kernel (the sum of its weights). -/
noncomputable def kernelSum (sigma : ℝ) : ℝ :=
  ∑ m ∈ Finset.range (2 * kernelRadius sigma + 1),
    gweight sigma ((m : ℤ) - (kernelRadius sigma : ℤ))

/-- Modelled from the spec (section 4.3): symmetric (reflective) boundary
handling: an out-of-range index is folded back into `[0, n)` by reflecting
about the volume edges, repeating the edge sample. -/
def reflectIdx (n : ℕ) (p : ℤ) : ℕ :=
  (if p % (2 * (n : ℤ)) < (n : ℤ) then p % (2 * (n : ℤ))
   else 2 * (n : ℤ) - 1 - p % (2 * (n : ℤ))).toNat

/-- Modelled from the spec (section 4.3): one 1-D Gaussian convolution pass
along the first axis, with reflective boundaries and normalised weights. -/
noncomputable def smoothX (sigma : ℝ) (n : ℕ) (v : ℕ → ℕ → ℕ → ℝ) :
    ℕ → ℕ → ℕ → ℝ := fun i j k =>
  (∑ m ∈ Finset.range (2 * kernelRadius sigma + 1),
      gweight sigma ((m : ℤ) - (kernelRadius sigma : ℤ)) *
        v (reflectIdx n ((i : ℤ) + ((m : ℤ) - (kernelRadius sigma : ℤ)))) j k) /
    kernelSum sigma

/-- Modelled from the spec (section 4.3): the 1-D pass along the second axis. -/
noncomputable def smoothY (sigma : ℝ) (n : ℕ) (v : ℕ → ℕ → ℕ → ℝ) :
    ℕ → ℕ → ℕ → ℝ := fun i j k =>
  (∑ m ∈ Finset.range (2 * kernelRadius sigma + 1),
      gweight sigma ((m : ℤ) - (kernelRadius sigma : ℤ)) *
        v i (reflectIdx n ((j : ℤ) + ((m : ℤ) - (kernelRadius sigma : ℤ)))) k) /
    kernelSum sigma

/-- Modelled from the spec (section 4.3): the 1-D pass along the third axis. -/
noncomputable def smoothZ (sigma : ℝ) (n : ℕ) (v : ℕ → ℕ → ℕ → ℝ) :
    ℕ → ℕ → ℕ → ℝ := fun i j k =>
  (∑ m ∈ Finset.range (2 * kernelRadius sigma + 1),
      gweight sigma ((m : ℤ) - (kernelRadius sigma : ℤ)) *
        v i j (reflectIdx n ((k : ℤ) + ((m : ℤ) - (kernelRadius sigma : ℤ))))) /
    kernelSum sigma

/-- Modelled from the spec (section 4.3): `scipy.ndimage.gaussian_filter`
called on line 76 is external library code; the spec describes it as a
separable Gaussian convolution applied as three sequential 1-D passes with
symmetric boundary handling, yielding a volume of identical shape. -/
noncomputable def gaussianSmooth (sigma : ℝ) (vol : ScalarVolume) : ScalarVolume :=
  ⟨vol.n, smoothZ sigma vol.n (smoothY sigma vol.n (smoothX sigma vol.n vol.val))⟩

/-- A triangle mesh: an ordered vertex sequence and an ordered sequence of
faces, each face a triple of indices into the vertex sequence. -/
structure Mesh (α : Type) where
  vertices : List (α × α × α)
  faces : List (ℕ × ℕ × ℕ)

/-- Modelled from the spec (section 4.4): the lattice offset of each of the
eight corners of a unit cube, in the classic marching-cubes numbering
(corners 0-3 on the bottom face counter-clockwise, 4-7 above them). -/
def cornerOffset : ℕ → ℕ × ℕ × ℕ
  | 0 => (0, 0, 0)
  | 1 => (1, 0, 0)
  | 2 => (1, 1, 0)
  | 3 => (0, 1, 0)
  | 4 => (0, 0, 1)
  | 5 => (1, 0, 1)
  | 6 => (1, 1, 1)
  | _ => (0, 1, 1)

/-- Modelled from the spec (section 4.4): the pair of corner numbers joined
by each of the twelve cube edges, in the classic numbering. -/
def edgeEndpoints : ℕ → ℕ × ℕ
  | 0 => (0, 1)
  | 1 => (1, 2)
  | 2 => (2, 3)
  | 3 => (3, 0)
  | 4 => (4, 5)
  | 5 => (5, 6)
  | 6 => (6, 7)
  | 7 => (7, 4)
  | 8 => (0, 4)
  | 9 => (1, 5)
  | 10 => (2, 6)
  | _ => (3, 7)

/-- The scalar sample at corner `c` of the unit cube anchored at `(i, j, k)`. -/
def cornerValue {α : Type} (v : ℕ → ℕ → ℕ → α) (i j k c : ℕ) : α :=
  v (i + (cornerOffset c).1) (j + (cornerOffset c).2.1) (k + (cornerOffset c).2.2)

/-- Modelled from the spec (section 4.4, step 2): a corner is classified
"inside" exactly when its sample is strictly below the isovalue. -/
def insideB {α : Type} [LinearOrder α] (v : ℕ → ℕ → ℕ → α) (iso : α)
    (i j k c : ℕ) : Bool :=
  decide (cornerValue v i j k c < iso)

/-- Modelled from the spec (section 4.4, step 2): the 8-bit configuration
index, bit `c` set exactly when corner `c` is inside. -/
def cubeConfig {α : Type} [LinearOrder α] (v : ℕ → ℕ → ℕ → α) (iso : α)
    (i j k : ℕ) : ℕ :=
  (insideB v iso i j k 0).toNat + 2 * (insideB v iso i j k 1).toNat
    + 4 * (insideB v iso i j k 2).toNat + 8 * (insideB v iso i j k 3).toNat
    + 16 * (insideB v iso i j k 4).toNat + 32 * (insideB v iso i j k 5).toNat
    + 64 * (insideB v iso i j k 6).toNat + 128 * (insideB v iso i j k 7).toNat

/-- Modelled from the spec (section 4.4, step 4): an edge is cut exactly
when its two endpoint corners are classified differently. -/
def cutB (cfg e : ℕ) : Bool :=
  cfg.testBit (edgeEndpoints e).1 != cfg.testBit (edgeEndpoints e).2

/-- The cut edges of a configuration, in increasing edge order; the extractor
creates one interpolated vertex per cut edge of each cube. -/
def cutEdgesList (cfg : ℕ) : List ℕ :=
  (List.range 12).filter fun e => cutB cfg e

/-- Modelled from the spec (section 4.4, step 5 and section 9): the standard
256-entry marching-cubes triangulation table, mapping a configuration index
to the flat list of edge numbers of its triangles (three consecutive entries
per triangle, at most five triangles per configuration). -/
def triTable : List (List ℕ) :=
  [[],
   [0, 8, 3],
   [0, 1, 9],
   [1, 8, 3, 9, 8, 1],
   [1, 2, 10],
   [0, 8, 3, 1, 2, 10],
   [9, 2, 10, 0, 2, 9],
   [2, 8, 3, 2, 10, 8, 10, 9, 8],
   [3, 11, 2],
   [0, 11, 2, 8, 11, 0],
   [1, 9, 0, 2, 3, 11],
   [1, 11, 2, 1, 9, 11, 9, 8, 11],
   [3, 10, 1, 11, 10, 3],
   [0, 10, 1, 0, 8, 10, 8, 11, 10],
   [3, 9, 0, 3, 11, 9, 11, 10, 9],
   [9, 8, 10, 10, 8, 11],
   [4, 7, 8],
   [4, 3, 0, 7, 3, 4],
   [0, 1, 9, 8, 4, 7],
   [4, 1, 9, 4, 7, 1, 7, 3, 1],
   [1, 2, 10, 8, 4, 7],
   [3, 4, 7, 3, 0, 4, 1, 2, 10],
   [9, 2, 10, 9, 0, 2, 8, 4, 7],
   [2, 10, 9, 2, 9, 7, 2, 7, 3, 7, 9, 4],
   [8, 4, 7, 3, 11, 2],
   [11, 4, 7, 11, 2, 4, 2, 0, 4],
   [9, 0, 1, 8, 4, 7, 2, 3, 11],
   [4, 7, 11, 9, 4, 11, 9, 11, 2, 9, 2, 1],
   [3, 10, 1, 3, 11, 10, 7, 8, 4],
   [1, 11, 10, 1, 4, 11, 1, 0, 4, 7, 11, 4],
   [4, 7, 8, 9, 0, 11, 9, 11, 10, 11, 0, 3],
   [4, 7, 11, 4, 11, 9, 9, 11, 10],
   [9, 5, 4],
   [9, 5, 4, 0, 8, 3],
   [0, 5, 4, 1, 5, 0],
   [8, 5, 4, 8, 3, 5, 3, 1, 5],
   [1, 2, 10, 9, 5, 4],
   [3, 0, 8, 1, 2, 10, 4, 9, 5],
   [5, 2, 10, 5, 4, 2, 4, 0, 2],
   [2, 10, 5, 3, 2, 5, 3, 5, 4, 3, 4, 8],
   [9, 5, 4, 2, 3, 11],
   [0, 11, 2, 0, 8, 11, 4, 9, 5],
   [0, 5, 4, 0, 1, 5, 2, 3, 11],
   [2, 1, 5, 2, 5, 8, 2, 8, 11, 4, 8, 5],
   [10, 3, 11, 10, 1, 3, 9, 5, 4],
   [4, 9, 5, 0, 8, 1, 8, 10, 1, 8, 11, 10],
   [5, 4, 0, 5, 0, 11, 5, 11, 10, 11, 0, 3],
   [5, 4, 8, 5, 8, 10, 10, 8, 11],
   [9, 7, 8, 5, 7, 9],
   [9, 3, 0, 9, 5, 3, 5, 7, 3],
   [0, 7, 8, 0, 1, 7, 1, 5, 7],
   [1, 5, 3, 3, 5, 7],
   [9, 7, 8, 9, 5, 7, 10, 1, 2],
   [10, 1, 2, 9, 5, 0, 5, 3, 0, 5, 7, 3],
   [8, 0, 2, 8, 2, 5, 8, 5, 7, 10, 5, 2],
   [2, 10, 5, 2, 5, 3, 3, 5, 7],
   [7, 9, 5, 7, 8, 9, 3, 11, 2],
   [9, 5, 7, 9, 7, 2, 9, 2, 0, 2, 7, 11],
   [2, 3, 11, 0, 1, 8, 1, 7, 8, 1, 5, 7],
   [11, 2, 1, 11, 1, 7, 7, 1, 5],
   [9, 5, 8, 8, 5, 7, 10, 1, 3, 10, 3, 11],
   [5, 7, 0, 5, 0, 9, 7, 11, 0, 1, 0, 10, 11, 10, 0],
   [11, 10, 0, 11, 0, 3, 10, 5, 0, 8, 0, 7, 5, 7, 0],
   [11, 10, 5, 7, 11, 5],
   [10, 6, 5],
   [0, 8, 3, 5, 10, 6],
   [9, 0, 1, 5, 10, 6],
   [1, 8, 3, 1, 9, 8, 5, 10, 6],
   [1, 6, 5, 2, 6, 1],
   [1, 6, 5, 1, 2, 6, 3, 0, 8],
   [9, 6, 5, 9, 0, 6, 0, 2, 6],
   [5, 9, 8, 5, 8, 2, 5, 2, 6, 3, 2, 8],
   [2, 3, 11, 10, 6, 5],
   [11, 0, 8, 11, 2, 0, 10, 6, 5],
   [0, 1, 9, 2, 3, 11, 5, 10, 6],
   [5, 10, 6, 1, 9, 2, 9, 11, 2, 9, 8, 11],
   [6, 3, 11, 6, 5, 3, 5, 1, 3],
   [0, 8, 11, 0, 11, 5, 0, 5, 1, 5, 11, 6],
   [3, 11, 6, 0, 3, 6, 0, 6, 5, 0, 5, 9],
   [6, 5, 9, 6, 9, 11, 11, 9, 8],
   [5, 10, 6, 4, 7, 8],
   [4, 3, 0, 4, 7, 3, 6, 5, 10],
   [1, 9, 0, 5, 10, 6, 8, 4, 7],
   [10, 6, 5, 1, 9, 7, 1, 7, 3, 7, 9, 4],
   [6, 1, 2, 6, 5, 1, 4, 7, 8],
   [1, 2, 5, 5, 2, 6, 3, 0, 4, 3, 4, 7],
   [8, 4, 7, 9, 0, 5, 0, 6, 5, 0, 2, 6],
   [7, 3, 9, 7, 9, 4, 3, 2, 9, 5, 9, 6, 2, 6, 9],
   [3, 11, 2, 7, 8, 4, 10, 6, 5],
   [5, 10, 6, 4, 7, 2, 4, 2, 0, 2, 7, 11],
   [0, 1, 9, 4, 7, 8, 2, 3, 11, 5, 10, 6],
   [9, 2, 1, 9, 11, 2, 9, 4, 11, 7, 11, 4, 5, 10, 6],
   [8, 4, 7, 3, 11, 5, 3, 5, 1, 5, 11, 6],
   [5, 1, 11, 5, 11, 6, 1, 0, 11, 7, 11, 4, 0, 4, 11],
   [0, 5, 9, 0, 6, 5, 0, 3, 6, 11, 6, 3, 8, 4, 7],
   [6, 5, 9, 6, 9, 11, 4, 7, 9, 7, 11, 9],
   [10, 4, 9, 6, 4, 10],
   [4, 10, 6, 4, 9, 10, 0, 8, 3],
   [10, 0, 1, 10, 6, 0, 6, 4, 0],
   [8, 3, 1, 8, 1, 6, 8, 6, 4, 6, 1, 10],
   [1, 4, 9, 1, 2, 4, 2, 6, 4],
   [3, 0, 8, 1, 2, 9, 2, 4, 9, 2, 6, 4],
   [0, 2, 4, 4, 2, 6],
   [8, 3, 2, 8, 2, 4, 4, 2, 6],
   [10, 4, 9, 10, 6, 4, 11, 2, 3],
   [0, 8, 2, 2, 8, 11, 4, 9, 10, 4, 10, 6],
   [3, 11, 2, 0, 1, 6, 0, 6, 4, 6, 1, 10],
   [6, 4, 1, 6, 1, 10, 4, 8, 1, 2, 1, 11, 8, 11, 1],
   [9, 6, 4, 9, 3, 6, 9, 1, 3, 11, 6, 3],
   [8, 11, 1, 8, 1, 0, 11, 6, 1, 9, 1, 4, 6, 4, 1],
   [3, 11, 6, 3, 6, 0, 0, 6, 4],
   [6, 4, 8, 11, 6, 8],
   [7, 10, 6, 7, 8, 10, 8, 9, 10],
   [0, 7, 3, 0, 10, 7, 0, 9, 10, 6, 7, 10],
   [10, 6, 7, 1, 10, 7, 1, 7, 8, 1, 8, 0],
   [10, 6, 7, 10, 7, 1, 1, 7, 3],
   [1, 2, 6, 1, 6, 8, 1, 8, 9, 8, 6, 7],
   [2, 6, 9, 2, 9, 1, 6, 7, 9, 0, 9, 3, 7, 3, 9],
   [7, 8, 0, 7, 0, 6, 6, 0, 2],
   [7, 3, 2, 6, 7, 2],
   [2, 3, 11, 10, 6, 8, 10, 8, 9, 8, 6, 7],
   [2, 0, 7, 2, 7, 11, 0, 9, 7, 6, 7, 10, 9, 10, 7],
   [1, 8, 0, 1, 7, 8, 1, 10, 7, 6, 7, 10, 2, 3, 11],
   [11, 2, 1, 11, 1, 7, 10, 6, 1, 6, 7, 1],
   [8, 9, 6, 8, 6, 7, 9, 1, 6, 11, 6, 3, 1, 3, 6],
   [0, 9, 1, 11, 6, 7],
   [7, 8, 0, 7, 0, 6, 3, 11, 0, 11, 6, 0],
   [7, 11, 6],
   [7, 6, 11],
   [3, 0, 8, 11, 7, 6],
   [0, 1, 9, 11, 7, 6],
   [8, 1, 9, 8, 3, 1, 11, 7, 6],
   [10, 1, 2, 6, 11, 7],
   [1, 2, 10, 3, 0, 8, 6, 11, 7],
   [2, 9, 0, 2, 10, 9, 6, 11, 7],
   [6, 11, 7, 2, 10, 3, 10, 8, 3, 10, 9, 8],
   [7, 2, 3, 6, 2, 7],
   [7, 0, 8, 7, 6, 0, 6, 2, 0],
   [2, 7, 6, 2, 3, 7, 0, 1, 9],
   [1, 6, 2, 1, 8, 6, 1, 9, 8, 8, 7, 6],
   [10, 7, 6, 10, 1, 7, 1, 3, 7],
   [10, 7, 6, 1, 7, 10, 1, 8, 7, 1, 0, 8],
   [0, 3, 7, 0, 7, 10, 0, 10, 9, 6, 10, 7],
   [7, 6, 10, 7, 10, 8, 8, 10, 9],
   [6, 8, 4, 11, 8, 6],
   [3, 6, 11, 3, 0, 6, 0, 4, 6],
   [8, 6, 11, 8, 4, 6, 9, 0, 1],
   [9, 4, 6, 9, 6, 3, 9, 3, 1, 11, 3, 6],
   [6, 8, 4, 6, 11, 8, 2, 10, 1],
   [1, 2, 10, 3, 0, 11, 0, 6, 11, 0, 4, 6],
   [4, 11, 8, 4, 6, 11, 0, 2, 9, 2, 10, 9],
   [10, 9, 3, 10, 3, 2, 9, 4, 3, 11, 3, 6, 4, 6, 3],
   [8, 2, 3, 8, 4, 2, 4, 6, 2],
   [0, 4, 2, 4, 6, 2],
   [1, 9, 0, 2, 3, 4, 2, 4, 6, 4, 3, 8],
   [1, 9, 4, 1, 4, 2, 2, 4, 6],
   [8, 1, 3, 8, 6, 1, 8, 4, 6, 6, 10, 1],
   [10, 1, 0, 10, 0, 6, 6, 0, 4],
   [4, 6, 3, 4, 3, 8, 6, 10, 3, 0, 3, 9, 10, 9, 3],
   [10, 9, 4, 6, 10, 4],
   [4, 9, 5, 7, 6, 11],
   [0, 8, 3, 4, 9, 5, 11, 7, 6],
   [5, 0, 1, 5, 4, 0, 7, 6, 11],
   [11, 7, 6, 8, 3, 4, 3, 5, 4, 3, 1, 5],
   [9, 5, 4, 10, 1, 2, 7, 6, 11],
   [6, 11, 7, 1, 2, 10, 0, 8, 3, 4, 9, 5],
   [7, 6, 11, 5, 4, 10, 4, 2, 10, 4, 0, 2],
   [3, 4, 8, 3, 5, 4, 3, 2, 5, 10, 5, 2, 11, 7, 6],
   [7, 2, 3, 7, 6, 2, 5, 4, 9],
   [9, 5, 4, 0, 8, 6, 0, 6, 2, 6, 8, 7],
   [3, 6, 2, 3, 7, 6, 1, 5, 0, 5, 4, 0],
   [6, 2, 8, 6, 8, 7, 2, 1, 8, 4, 8, 5, 1, 5, 8],
   [9, 5, 4, 10, 1, 6, 1, 7, 6, 1, 3, 7],
   [1, 6, 10, 1, 7, 6, 1, 0, 7, 8, 7, 0, 9, 5, 4],
   [4, 0, 10, 4, 10, 5, 0, 3, 10, 6, 10, 7, 3, 7, 10],
   [7, 6, 10, 7, 10, 8, 5, 4, 10, 4, 8, 10],
   [6, 9, 5, 6, 11, 9, 11, 8, 9],
   [3, 6, 11, 0, 6, 3, 0, 5, 6, 0, 9, 5],
   [0, 11, 8, 0, 5, 11, 0, 1, 5, 5, 6, 11],
   [6, 11, 3, 6, 3, 5, 5, 3, 1],
   [1, 2, 10, 9, 5, 11, 9, 11, 8, 11, 5, 6],
   [0, 11, 3, 0, 6, 11, 0, 9, 6, 5, 6, 9, 1, 2, 10],
   [11, 8, 5, 11, 5, 6, 8, 0, 5, 10, 5, 2, 0, 2, 5],
   [6, 11, 3, 6, 3, 5, 2, 10, 3, 10, 5, 3],
   [5, 8, 9, 5, 2, 8, 5, 6, 2, 3, 8, 2],
   [9, 5, 6, 9, 6, 0, 0, 6, 2],
   [1, 5, 8, 1, 8, 0, 5, 6, 8, 3, 8, 2, 6, 2, 8],
   [1, 5, 6, 2, 1, 6],
   [1, 3, 6, 1, 6, 10, 3, 8, 6, 5, 6, 9, 8, 9, 6],
   [10, 1, 0, 10, 0, 6, 9, 5, 0, 5, 6, 0],
   [0, 3, 8, 5, 6, 10],
   [10, 5, 6],
   [11, 5, 10, 7, 5, 11],
   [11, 5, 10, 11, 7, 5, 8, 3, 0],
   [5, 11, 7, 5, 10, 11, 1, 9, 0],
   [10, 7, 5, 10, 11, 7, 9, 8, 1, 8, 3, 1],
   [11, 1, 2, 11, 7, 1, 7, 5, 1],
   [0, 8, 3, 1, 2, 7, 1, 7, 5, 7, 2, 11],
   [9, 7, 5, 9, 2, 7, 9, 0, 2, 2, 11, 7],
   [7, 5, 2, 7, 2, 11, 5, 9, 2, 3, 2, 8, 9, 8, 2],
   [2, 5, 10, 2, 3, 5, 3, 7, 5],
   [8, 2, 0, 8, 5, 2, 8, 7, 5, 10, 2, 5],
   [9, 0, 1, 5, 10, 3, 5, 3, 7, 3, 10, 2],
   [9, 8, 2, 9, 2, 1, 8, 7, 2, 10, 2, 5, 7, 5, 2],
   [1, 3, 5, 3, 7, 5],
   [0, 8, 7, 0, 7, 1, 1, 7, 5],
   [9, 0, 3, 9, 3, 5, 5, 3, 7],
   [9, 8, 7, 5, 9, 7],
   [5, 8, 4, 5, 10, 8, 10, 11, 8],
   [5, 0, 4, 5, 11, 0, 5, 10, 11, 11, 3, 0],
   [0, 1, 9, 8, 4, 10, 8, 10, 11, 10, 4, 5],
   [10, 11, 4, 10, 4, 5, 11, 3, 4, 9, 4, 1, 3, 1, 4],
   [2, 5, 1, 2, 8, 5, 2, 11, 8, 4, 5, 8],
   [0, 4, 11, 0, 11, 3, 4, 5, 11, 2, 11, 1, 5, 1, 11],
   [0, 2, 5, 0, 5, 9, 2, 11, 5, 4, 5, 8, 11, 8, 5],
   [9, 4, 5, 2, 11, 3],
   [2, 5, 10, 3, 5, 2, 3, 4, 5, 3, 8, 4],
   [5, 10, 2, 5, 2, 4, 4, 2, 0],
   [3, 10, 2, 3, 5, 10, 3, 8, 5, 4, 5, 8, 0, 1, 9],
   [5, 10, 2, 5, 2, 4, 1, 9, 2, 9, 4, 2],
   [8, 4, 5, 8, 5, 3, 3, 5, 1],
   [0, 4, 5, 1, 0, 5],
   [8, 4, 5, 8, 5, 3, 9, 0, 5, 0, 3, 5],
   [9, 4, 5],
   [4, 11, 7, 4, 9, 11, 9, 10, 11],
   [0, 8, 3, 4, 9, 7, 9, 11, 7, 9, 10, 11],
   [1, 10, 11, 1, 11, 4, 1, 4, 0, 7, 4, 11],
   [3, 1, 4, 3, 4, 8, 1, 10, 4, 7, 4, 11, 10, 11, 4],
   [4, 11, 7, 9, 11, 4, 9, 2, 11, 9, 1, 2],
   [9, 7, 4, 9, 11, 7, 9, 1, 11, 2, 11, 1, 0, 8, 3],
   [11, 7, 4, 11, 4, 2, 2, 4, 0],
   [11, 7, 4, 11, 4, 2, 8, 3, 4, 3, 2, 4],
   [2, 9, 10, 2, 7, 9, 2, 3, 7, 7, 4, 9],
   [9, 10, 7, 9, 7, 4, 10, 2, 7, 8, 7, 0, 2, 0, 7],
   [3, 7, 10, 3, 10, 2, 7, 4, 10, 1, 10, 0, 4, 0, 10],
   [1, 10, 2, 8, 7, 4],
   [4, 9, 1, 4, 1, 7, 7, 1, 3],
   [4, 9, 1, 4, 1, 7, 0, 8, 1, 8, 7, 1],
   [4, 0, 3, 7, 4, 3],
   [4, 8, 7],
   [9, 10, 8, 10, 11, 8],
   [3, 0, 9, 3, 9, 11, 11, 9, 10],
   [0, 1, 10, 0, 10, 8, 8, 10, 11],
   [3, 1, 10, 11, 3, 10],
   [1, 2, 11, 1, 11, 9, 9, 11, 8],
   [3, 0, 9, 3, 9, 11, 1, 2, 9, 2, 11, 9],
   [0, 2, 11, 8, 0, 11],
   [3, 2, 11],
   [2, 3, 8, 2, 8, 10, 10, 8, 9],
   [9, 10, 2, 0, 9, 2],
   [2, 3, 8, 2, 8, 10, 0, 1, 8, 1, 10, 8],
   [1, 10, 2],
   [1, 3, 8, 9, 1, 8],
   [0, 9, 1],
   [0, 3, 8],
   []]

/-- The triangulation-table row of a configuration index (empty for indices
out of range, which cannot arise from an 8-bit configuration). -/
def tbl (cfg : ℕ) : List ℕ :=
  triTable.getD cfg []

/-- Group a flat edge list into consecutive triples (one per triangle);
a trailing fragment shorter than three entries is dropped. -/
def toTriples : List ℕ → List (ℕ × ℕ × ℕ)
  | a :: b :: c :: rest => (a, b, c) :: toTriples rest
  | _ => []

/-- Modelled from the spec (section 4.4, step 4): the interpolation
parameter `t = (isoValue - v0) / (v1 - v0)`, clamped to `[0, 1]` to avoid
extrapolation from floating-point error. -/
def clampT {α : Type} [LinearOrderedField α] (iso v0 v1 : α) : α :=
  max 0 (min 1 ((iso - v0) / (v1 - v0)))

/-- The grid-space position of a cube corner, scaled by the per-axis
spacing (grid index times spacing on each axis). -/
def cornerPos {α : Type} [LinearOrderedField α] (s1 s2 s3 : α) (i j k c : ℕ) :
    α × α × α :=
  (((i + (cornerOffset c).1 : ℕ) : α) * s1,
   ((j + (cornerOffset c).2.1 : ℕ) : α) * s2,
   ((k + (cornerOffset c).2.2 : ℕ) : α) * s3)

/-- Modelled from the spec (section 4.4, step 4): the interpolated vertex
on a cut edge: `corner0 + t·(corner1 - corner0)` in grid space. -/
def edgeVertex {α : Type} [LinearOrderedField α] (v : ℕ → ℕ → ℕ → α)
    (iso s1 s2 s3 : α) (i j k e : ℕ) : α × α × α :=
  let a := (edgeEndpoints e).1
  let b := (edgeEndpoints e).2
  let pa := cornerPos s1 s2 s3 i j k a
  let pb := cornerPos s1 s2 s3 i j k b
  let t := clampT iso (cornerValue v i j k a) (cornerValue v i j k b)
  (pa.1 + t * (pb.1 - pa.1), pa.2.1 + t * (pb.2.1 - pa.2.1),
   pa.2.2 + t * (pb.2.2 - pa.2.2))

/-- Modelled from the spec (section 4.4, steps 4 and 6): the vertices a cube
contributes, one freshly created vertex per cut edge, in edge order. -/
def cubeVerts {α : Type} [LinearOrderedField α] (v : ℕ → ℕ → ℕ → α)
    (iso s1 s2 s3 : α) (i j k : ℕ) : List (α × α × α) :=
  (cutEdgesList (cubeConfig v iso i j k)).map (edgeVertex v iso s1 s2 s3 i j k)

/-- Modelled from the spec (section 4.4, step 5): the faces a cube
contributes, in cube-local vertex indices: each table triangle's edge
numbers are replaced by the position of that edge among the cube's cut
edges. -/
def cubeFacesLocal (cfg : ℕ) : List (ℕ × ℕ × ℕ) :=
  (toTriples (tbl cfg)).map fun t =>
    ((cutEdgesList cfg).indexOf t.1, (cutEdgesList cfg).indexOf t.2.1,
     (cutEdgesList cfg).indexOf t.2.2)

/-- Modelled from the spec (section 4.4, step 1): the unit cubes of an
`n`-lattice, iterated in row-major order over `[0, n-2]³`. -/
def cubesList (n : ℕ) : List (ℕ × ℕ × ℕ) :=
  (List.range (n - 1)).flatMap fun i =>
    (List.range (n - 1)).flatMap fun j =>
      (List.range (n - 1)).map fun k => (i, j, k)

/-- Accumulates the faces of a cube list, offsetting each cube's local
vertex indices by the number of vertices created by the preceding cubes. -/
def mcFacesAux {α : Type} [LinearOrderedField α] (v : ℕ → ℕ → ℕ → α) (iso : α) :
    List (ℕ × ℕ × ℕ) → ℕ → List (ℕ × ℕ × ℕ)
  | [], _ => []
  | c :: rest, off =>
      (cubeFacesLocal (cubeConfig v iso c.1 c.2.1 c.2.2)).map
          (fun f => (off + f.1, off + f.2.1, off + f.2.2))
        ++ mcFacesAux v iso rest
            (off + (cutEdgesList (cubeConfig v iso c.1 c.2.1 c.2.2)).length)

/-- Modelled from the spec (section 4.4): `skimage.measure.marching_cubes`
called on lines 80-82 is external library code; the spec describes the
classic marching-cubes algorithm: classify each cube's corners against the
isovalue, interpolate a vertex on every cut edge, and emit the triangles of
the standard 256-entry table. -/
def marchingCubes {α : Type} [LinearOrderedField α] (n : ℕ)
    (v : ℕ → ℕ → ℕ → α) (iso s1 s2 s3 : α) : Mesh α :=
  ⟨(cubesList n).flatMap fun c => cubeVerts v iso s1 s2 s3 c.1 c.2.1 c.2.2,
   mcFacesAux v iso (cubesList n) 0⟩

/-- Source: lines 84-87: translate every vertex by adding the lower bound
to each coordinate component; faces are left untouched. -/
def translateMesh (m : Mesh ℝ) (lo : ℝ) : Mesh ℝ :=
  ⟨m.vertices.map fun p => (p.1 + lo, p.2.1 + lo, p.2.2 + lo), m.faces⟩

/-- The failure modes of one surface-generation invocation.  The first three
constructors are the validation errors named by the spec (section 7); the
source performs no such validation, and the only failure it can actually
produce is the index error raised when `x[1]` is read from a linspace with
fewer than two points (line 81). -/
inductive GenError where
  | invalidResolution
  | invalidBounds
  | invalidSigma
  | indexError
  deriving DecidableEq, Repr

/-- Source: `generate_surface(resolution, bounds, iso_value)` (lines 43-89):
sample the field on the lattice, smooth with a Gaussian filter at sigma 0.5
(hard-coded, line 76), extract the isosurface with marching cubes using the
per-axis spacing `x[1] - x[0]`, and translate the vertices by the lower
bound.  The spacing read fails for resolutions below 2; no input validation
is performed before sampling. -/
noncomputable def generate_surface (resolution : ℕ) (lo hi iso : ℝ) :
    Except GenError (Mesh ℝ) :=
  let vol := sampleVolume resolution lo hi
  let sm := gaussianSmooth (1 / 2) vol
  if 2 ≤ resolution then
    let sp := axisSpacing resolution lo hi
    Except.ok (translateMesh (marchingCubes resolution sm.val iso sp sp sp) lo)
  else Except.error GenError.indexError

/-- The number of faces of a surface-generation result (zero on error). -/
def facesCount (r : Except GenError (Mesh ℝ)) : ℕ :=
  match r with
  | Except.ok m => m.faces.length
  | Except.error _ => 0

/-- Whether a surface-generation result is a success. -/
def isOk (r : Except GenError (Mesh ℝ)) : Bool :=
  match r with
  | Except.ok _ => true
  | Except.error _ => false

/-- The volume handed to the extractor by `generate_surface`: the sampled
volume after the hard-coded sigma-0.5 Gaussian smoothing (lines 64-76). -/
noncomputable def preExtractionVolume (resolution : ℕ) (lo hi : ℝ) :
    ScalarVolume :=
  gaussianSmooth (1 / 2) (sampleVolume resolution lo hi)

/-- A volume avoids an isovalue when no sample inside its cube equals it. -/
def avoidsIso (vol : ScalarVolume) (iso : ℝ) : Prop :=
  ∀ i j k, i < vol.n → j < vol.n → k < vol.n → vol.val i j k ≠ iso

/-- The three possible outcomes of reading the interactive resolution
prompt (main, lines 166-172): an empty reply, a reply `int()` rejects, or a
successfully parsed integer. -/
inductive UserInput where
  | empty
  | nonNumeric
  | num (n : ℤ)

/-- Source: main, lines 166-172: an empty reply defaults to 50 and is then
clamped; a reply `int()` rejects leaves the default 50 from the exception
handler; a parsed integer is clamped to `max(30, min(100, n))`. -/
def resolutionOf : UserInput → ℤ
  | UserInput.empty => max 30 (min 100 50)
  | UserInput.nonNumeric => 50
  | UserInput.num n => max 30 (min 100 n)

/-- The weight fraction that one 1-D smoothing pass at sigma 0.5 moves
across the midpoint of a two-sample axis: the normalised kernel mass of
the offsets that land on the opposite sample after boundary reflection. -/
noncomputable def mu : ℝ :=
  (Real.exp (-2) + 2 * Real.exp (-8)) / (1 + 2 * Real.exp (-2) + 2 * Real.exp (-8))

/-- A rational two-sample test volume: -1 on the plane i = 0, 1 elsewhere. -/
def testVol : ℕ → ℕ → ℕ → ℚ := fun i _ _ => if i = 0 then -1 else 1

/-- The mesh produced by `generate_surface` at resolution 2 on the box
`[0, pi/2]` with isovalue 1/2 (an invocation whose smoothed field crosses
the isovalue without ever attaining it). -/
noncomputable def fkMesh : Mesh ℝ :=
  match generate_surface 2 0 (Real.pi / 2) (1 / 2) with
  | Except.ok m => m
  | Except.error _ => ⟨[], []⟩

set_option maxRecDepth 40000

/-- C10: in the interactive variant every parsed resolution is clamped into
[30, 100]: empty and non-numeric replies give the default 50, and integer
replies are clamped to max(30, min(100, n)), so `generate_surface` is never
invoked from the prompt with a resolution below 30. -/
theorem interactive_resolution_clamped :
    ∀ u : UserInput, 30 ≤ resolutionOf u ∧ resolutionOf u ≤ 100 ∧
      resolutionOf UserInput.empty = 50 ∧
      resolutionOf UserInput.nonNumeric = 50 ∧
      ∀ n : ℤ, resolutionOf (UserInput.num n) = max 30 (min 100 n) := by
  intro u
  have h1 : 30 ≤ resolutionOf u ∧ resolutionOf u ≤ 100 := by
    cases u <;> simp [resolutionOf] <;> omega
  exact ⟨h1.1, h1.2, by norm_num [resolutionOf], rfl, fun n => rfl⟩

/-- C1: for a valid resolution and bounds, the sampled volume has exactly
resolution³ entries, the sample at (i, j, k) is the Fischer-Koch S field at
the corresponding lattice point, the lattice spans [lo, hi] inclusive, and
the spacing reported to the extractor is (hi - lo)/(resolution - 1). -/
theorem grid_sampler_correct (resolution : ℕ) (lo hi : ℝ)
    (h2 : 2 ≤ resolution) (hlt : lo < hi) :
    (sampleVolume resolution lo hi).entries.length = resolution ^ 3 ∧
    (∀ i j k, i < resolution → j < resolution → k < resolution →
      (sampleVolume resolution lo hi).val i j k =
        Real.cos (2 * linspace lo hi resolution i) *
            Real.sin (linspace lo hi resolution j) *
            Real.cos (linspace lo hi resolution k)
          + Real.cos (2 * linspace lo hi resolution j) *
              Real.sin (linspace lo hi resolution k) *
              Real.cos (linspace lo hi resolution i)
          + Real.cos (2 * linspace lo hi resolution k) *
              Real.sin (linspace lo hi resolution i) *
              Real.cos (linspace lo hi resolution j)) ∧
    linspace lo hi resolution 0 = lo ∧
    linspace lo hi resolution (resolution - 1) = hi ∧
    axisSpacing resolution lo hi = (hi - lo) / ((resolution : ℝ) - 1) := by
  refine ⟨?_, fun i j k _ _ _ => rfl, by simp [linspace], ?_, ?_⟩
  · simp [ScalarVolume.entries, sampleVolume]
  · have hcast : ((resolution - 1 : ℕ) : ℝ) = (resolution : ℝ) - 1 := by
      have : 1 ≤ resolution := by omega
      push_cast [this]
      ring
    have hne : (resolution : ℝ) - 1 ≠ 0 := by
      have : (2 : ℝ) ≤ (resolution : ℝ) := by exact_mod_cast h2
      nlinarith
    rw [linspace, hcast]
    field_simp
  · rw [axisSpacing, linspace, linspace]
    push_cast
    ring

/-- Witness for C1 at resolution 2 on [0, 1]. -/
theorem grid_sampler_correct_witness :
    (sampleVolume 2 0 1).entries.length = 2 ^ 3 ∧
    axisSpacing 2 0 1 = (1 - 0) / ((2 : ℝ) - 1) :=
  ⟨(grid_sampler_correct 2 0 1 (le_refl 2) zero_lt_one).1,
   (grid_sampler_correct 2 0 1 (le_refl 2) zero_lt_one).2.2.2.2⟩

/-- Unfolding of `generate_surface` on the success path. -/
theorem generate_surface_eq (resolution : ℕ) (lo hi iso : ℝ)
    (h : 2 ≤ resolution) :
    generate_surface resolution lo hi iso =
      Except.ok (translateMesh
        (marchingCubes resolution (preExtractionVolume resolution lo hi).val iso
          (axisSpacing resolution lo hi) (axisSpacing resolution lo hi)
          (axisSpacing resolution lo hi)) lo) := by
  simp [generate_surface, preExtractionVolume, if_pos h]

/-- C6: the full pipeline is deterministic: two runs on identical inputs
produce identical results, so the vertex and face sequences are
bit-identical between runs. -/
theorem generation_deterministic (resolution : ℕ) (lo hi iso : ℝ)
    (r₁ r₂ : Except GenError (Mesh ℝ))
    (h₁ : generate_surface resolution lo hi iso = r₁)
    (h₂ : generate_surface resolution lo hi iso = r₂) : r₁ = r₂ := by
  rw [← h₁, ← h₂]

/-- Witness for C6 at a concrete invocation. -/
theorem generation_deterministic_witness :
    generate_surface 2 0 1 0 = generate_surface 2 0 1 0 :=
  generation_deterministic 2 0 1 0 _ _ rfl rfl

/-- C7: the coordinate mapper adds the lower bound to each of the three
components of every vertex, leaves the face sequence unchanged, and is the
total final stage of every successful generation. -/
theorem coordinate_mapper_translates :
    (∀ (m : Mesh ℝ) (lo : ℝ),
      (translateMesh m lo).faces = m.faces ∧
      (translateMesh m lo).vertices =
        m.vertices.map fun p => (p.1 + lo, p.2.1 + lo, p.2.2 + lo)) ∧
    ∀ (resolution : ℕ) (lo hi iso : ℝ), 2 ≤ resolution →
      generate_surface resolution lo hi iso =
        Except.ok (translateMesh
          (marchingCubes resolution (preExtractionVolume resolution lo hi).val
            iso (axisSpacing resolution lo hi) (axisSpacing resolution lo hi)
            (axisSpacing resolution lo hi)) lo) :=
  ⟨fun _ _ => ⟨rfl, rfl⟩, fun r lo hi iso h => generate_surface_eq r lo hi iso h⟩

/-- Witness for C7 at a concrete invocation. -/
theorem coordinate_mapper_translates_witness :
    generate_surface 2 0 1 0 =
      Except.ok (translateMesh
        (marchingCubes 2 (preExtractionVolume 2 0 1).val 0 (axisSpacing 2 0 1)
          (axisSpacing 2 0 1) (axisSpacing 2 0 1)) 0) :=
  coordinate_mapper_translates.2 2 0 1 0 (by norm_num)

/-- The kernel truncation radius at sigma 0.5 is 2. -/
theorem kernelRadius_half : kernelRadius (1 / 2 : ℝ) = 2 := by
  have h : ⌊(4 * (1 / 2 : ℝ) + 1 / 2)⌋ = (2 : ℤ) := by
    rw [Int.floor_eq_iff]
    norm_num
  rw [kernelRadius, h]
  rfl

/-- The kernel truncation radius at sigma 0 is 0. -/
theorem kernelRadius_zero : kernelRadius (0 : ℝ) = 0 := by
  have h : ⌊(4 * (0 : ℝ) + 1 / 2)⌋ = (0 : ℤ) := by
    rw [Int.floor_eq_iff]
    norm_num
  rw [kernelRadius, h]
  rfl

theorem gw_zero : gweight (1 / 2 : ℝ) 0 = 1 := by
  rw [gweight]
  norm_num

theorem gw_one : gweight (1 / 2 : ℝ) 1 = Real.exp (-2) := by
  rw [gweight]
  norm_num

theorem gw_mone : gweight (1 / 2 : ℝ) (-1) = Real.exp (-2) := by
  rw [gweight]
  norm_num

theorem gw_two : gweight (1 / 2 : ℝ) 2 = Real.exp (-8) := by
  rw [gweight]
  norm_num

theorem gw_mtwo : gweight (1 / 2 : ℝ) (-2) = Real.exp (-8) := by
  rw [gweight]
  norm_num

/-- The kernel normalisation constant at sigma 0.5. -/
theorem kernelSum_half :
    kernelSum (1 / 2 : ℝ) = 1 + 2 * Real.exp (-2) + 2 * Real.exp (-8) := by
  rw [kernelSum, kernelRadius_half]
  norm_num [Finset.sum_range_succ, gw_zero, gw_one, gw_mone, gw_two, gw_mtwo]
  ring

theorem reflect_two_m2 : reflectIdx 2 (-2) = 1 := by decide
theorem reflect_two_m1 : reflectIdx 2 (-1) = 0 := by decide
theorem reflect_two_0 : reflectIdx 2 0 = 0 := by decide
theorem reflect_two_1 : reflectIdx 2 1 = 1 := by decide
theorem reflect_two_2 : reflectIdx 2 2 = 1 := by decide
theorem reflect_two_3 : reflectIdx 2 3 = 0 := by decide

theorem kernelSum_half_pos : (0 : ℝ) < 1 + 2 * Real.exp (-2) + 2 * Real.exp (-8) := by
  positivity

/-- One smoothing pass at sigma 0.5 along the first axis of a two-sample
volume mixes the two samples with weights 1 - mu and mu (row 0). -/
theorem smoothX_pass0 (v : ℕ → ℕ → ℕ → ℝ) (j k : ℕ) :
    smoothX (1 / 2) 2 v 0 j k = (1 - mu) * v 0 j k + mu * v 1 j k := by
  simp only [smoothX, kernelRadius_half, kernelSum_half]
  norm_num [Finset.sum_range_succ, gw_zero, gw_one, gw_mone, gw_two, gw_mtwo,
    reflect_two_m2, reflect_two_m1, reflect_two_0, reflect_two_1, reflect_two_2]
  rw [mu]
  have hK := kernelSum_half_pos
  field_simp
  ring

/-- One smoothing pass at sigma 0.5 along the first axis (row 1). -/
theorem smoothX_pass1 (v : ℕ → ℕ → ℕ → ℝ) (j k : ℕ) :
    smoothX (1 / 2) 2 v 1 j k = mu * v 0 j k + (1 - mu) * v 1 j k := by
  simp only [smoothX, kernelRadius_half, kernelSum_half]
  norm_num [Finset.sum_range_succ, gw_zero, gw_one, gw_mone, gw_two, gw_mtwo,
    reflect_two_m1, reflect_two_0, reflect_two_1, reflect_two_2, reflect_two_3]
  rw [mu]
  have hK := kernelSum_half_pos
  field_simp
  ring

/-- One smoothing pass at sigma 0.5 along the second axis (row 0). -/
theorem smoothY_pass0 (v : ℕ → ℕ → ℕ → ℝ) (i k : ℕ) :
    smoothY (1 / 2) 2 v i 0 k = (1 - mu) * v i 0 k + mu * v i 1 k := by
  simp only [smoothY, kernelRadius_half, kernelSum_half]
  norm_num [Finset.sum_range_succ, gw_zero, gw_one, gw_mone, gw_two, gw_mtwo,
    reflect_two_m2, reflect_two_m1, reflect_two_0, reflect_two_1, reflect_two_2]
  rw [mu]
  have hK := kernelSum_half_pos
  field_simp
  ring

/-- One smoothing pass at sigma 0.5 along the second axis (row 1). -/
theorem smoothY_pass1 (v : ℕ → ℕ → ℕ → ℝ) (i k : ℕ) :
    smoothY (1 / 2) 2 v i 1 k = mu * v i 0 k + (1 - mu) * v i 1 k := by
  simp only [smoothY, kernelRadius_half, kernelSum_half]
  norm_num [Finset.sum_range_succ, gw_zero, gw_one, gw_mone, gw_two, gw_mtwo,
    reflect_two_m1, reflect_two_0, reflect_two_1, reflect_two_2, reflect_two_3]
  rw [mu]
  have hK := kernelSum_half_pos
  field_simp
  ring

/-- One smoothing pass at sigma 0.5 along the third axis (row 0). -/
theorem smoothZ_pass0 (v : ℕ → ℕ → ℕ → ℝ) (i j : ℕ) :
    smoothZ (1 / 2) 2 v i j 0 = (1 - mu) * v i j 0 + mu * v i j 1 := by
  simp only [smoothZ, kernelRadius_half, kernelSum_half]
  norm_num [Finset.sum_range_succ, gw_zero, gw_one, gw_mone, gw_two, gw_mtwo,
    reflect_two_m2, reflect_two_m1, reflect_two_0, reflect_two_1, reflect_two_2]
  rw [mu]
  have hK := kernelSum_half_pos
  field_simp
  ring

/-- One smoothing pass at sigma 0.5 along the third axis (row 1). -/
theorem smoothZ_pass1 (v : ℕ → ℕ → ℕ → ℝ) (i j : ℕ) :
    smoothZ (1 / 2) 2 v i j 1 = mu * v i j 0 + (1 - mu) * v i j 1 := by
  simp only [smoothZ, kernelRadius_half, kernelSum_half]
  norm_num [Finset.sum_range_succ, gw_zero, gw_one, gw_mone, gw_two, gw_mtwo,
    reflect_two_m1, reflect_two_0, reflect_two_1, reflect_two_2, reflect_two_3]
  rw [mu]
  have hK := kernelSum_half_pos
  field_simp
  ring

theorem mu_pos : 0 < mu := by
  rw [mu]
  positivity

theorem exp_two_gt : (7 : ℝ) < Real.exp 2 := by
  have h1 := Real.exp_one_gt_d9
  have h2 : Real.exp 2 = Real.exp 1 * Real.exp 1 := by
    rw [← Real.exp_add]
    norm_num
  nlinarith

theorem exp_neg_two_lt : Real.exp (-2) < 1 / 7 := by
  have hprod : Real.exp (-2) * Real.exp 2 = 1 := by
    rw [← Real.exp_add]
    norm_num
  nlinarith [Real.exp_pos (-2), exp_two_gt]

theorem exp_neg_eight_eq : Real.exp (-8) = Real.exp (-2) ^ 4 := by
  rw [show (-8 : ℝ) = ((4 : ℕ) : ℝ) * (-2) by norm_num, Real.exp_nat_mul]

theorem mu_le : mu ≤ 3 / 25 := by
  have ha : (0 : ℝ) < Real.exp (-2) := Real.exp_pos _
  have hb : Real.exp (-2) < 1 / 7 := exp_neg_two_lt
  have hc : Real.exp (-2) ^ 4 < (1 / 7 : ℝ) ^ 4 := by
    exact pow_lt_pow_left hb (le_of_lt ha) (by norm_num)
  have h8 : Real.exp (-8) < 1 / 2401 := by
    rw [exp_neg_eight_eq]
    nlinarith
  have h8p : (0 : ℝ) < Real.exp (-8) := Real.exp_pos _
  rw [mu, div_le_iff (by positivity)]
  nlinarith

theorem mu_lt_half : mu < 1 / 2 := lt_of_le_of_lt mu_le (by norm_num)

theorem ls_0 : linspace 0 (Real.pi / 2) 2 0 = 0 := by
  simp [linspace]

theorem ls_1 : linspace 0 (Real.pi / 2) 2 1 = Real.pi / 2 := by
  rw [linspace]
  norm_num

theorem fkv000 : (sampleVolume 2 0 (Real.pi / 2)).val 0 0 0 = 0 := by
  show fischer_koch_s (linspace 0 (Real.pi / 2) 2 0) (linspace 0 (Real.pi / 2) 2 0)
      (linspace 0 (Real.pi / 2) 2 0) = 0
  rw [ls_0]
  simp [fischer_koch_s]

theorem fkv100 : (sampleVolume 2 0 (Real.pi / 2)).val 1 0 0 = 1 := by
  show fischer_koch_s (linspace 0 (Real.pi / 2) 2 1) (linspace 0 (Real.pi / 2) 2 0)
      (linspace 0 (Real.pi / 2) 2 0) = 1
  rw [ls_0, ls_1]
  simp [fischer_koch_s, Real.sin_pi_div_two]

theorem fkv010 : (sampleVolume 2 0 (Real.pi / 2)).val 0 1 0 = 1 := by
  show fischer_koch_s (linspace 0 (Real.pi / 2) 2 0) (linspace 0 (Real.pi / 2) 2 1)
      (linspace 0 (Real.pi / 2) 2 0) = 1
  rw [ls_0, ls_1]
  simp [fischer_koch_s, Real.sin_pi_div_two]

theorem fkv001 : (sampleVolume 2 0 (Real.pi / 2)).val 0 0 1 = 1 := by
  show fischer_koch_s (linspace 0 (Real.pi / 2) 2 0) (linspace 0 (Real.pi / 2) 2 0)
      (linspace 0 (Real.pi / 2) 2 1) = 1
  rw [ls_0, ls_1]
  simp [fischer_koch_s, Real.sin_pi_div_two]

theorem fkv110 : (sampleVolume 2 0 (Real.pi / 2)).val 1 1 0 = -1 := by
  show fischer_koch_s (linspace 0 (Real.pi / 2) 2 1) (linspace 0 (Real.pi / 2) 2 1)
      (linspace 0 (Real.pi / 2) 2 0) = -1
  rw [ls_0, ls_1]
  have h2p : 2 * (Real.pi / 2) = Real.pi := by ring
  simp [fischer_koch_s, h2p, Real.sin_pi_div_two, Real.cos_pi_div_two, Real.cos_pi]

theorem fkv101 : (sampleVolume 2 0 (Real.pi / 2)).val 1 0 1 = -1 := by
  show fischer_koch_s (linspace 0 (Real.pi / 2) 2 1) (linspace 0 (Real.pi / 2) 2 0)
      (linspace 0 (Real.pi / 2) 2 1) = -1
  rw [ls_0, ls_1]
  have h2p : 2 * (Real.pi / 2) = Real.pi := by ring
  simp [fischer_koch_s, h2p, Real.sin_pi_div_two, Real.cos_pi_div_two, Real.cos_pi]

theorem fkv011 : (sampleVolume 2 0 (Real.pi / 2)).val 0 1 1 = -1 := by
  show fischer_koch_s (linspace 0 (Real.pi / 2) 2 0) (linspace 0 (Real.pi / 2) 2 1)
      (linspace 0 (Real.pi / 2) 2 1) = -1
  rw [ls_0, ls_1]
  have h2p : 2 * (Real.pi / 2) = Real.pi := by ring
  simp [fischer_koch_s, h2p, Real.sin_pi_div_two, Real.cos_pi_div_two, Real.cos_pi]

theorem fkv111 : (sampleVolume 2 0 (Real.pi / 2)).val 1 1 1 = 0 := by
  show fischer_koch_s (linspace 0 (Real.pi / 2) 2 1) (linspace 0 (Real.pi / 2) 2 1)
      (linspace 0 (Real.pi / 2) 2 1) = 0
  rw [ls_1]
  simp [fischer_koch_s, Real.cos_pi_div_two]

theorem smv000 : (preExtractionVolume 2 0 (Real.pi / 2)).val 0 0 0 =
    3 * mu - 9 * mu ^ 2 + 6 * mu ^ 3 := by
  show smoothZ (1 / 2) 2 (smoothY (1 / 2) 2 (smoothX (1 / 2) 2
      (sampleVolume 2 0 (Real.pi / 2)).val)) 0 0 0 = _
  simp only [smoothZ_pass0, smoothZ_pass1, smoothY_pass0, smoothY_pass1,
    smoothX_pass0, smoothX_pass1, fkv000, fkv100, fkv010, fkv001, fkv110,
    fkv101, fkv011, fkv111]
  ring

theorem smv100 : (preExtractionVolume 2 0 (Real.pi / 2)).val 1 0 0 =
    1 - 5 * mu + 9 * mu ^ 2 - 6 * mu ^ 3 := by
  show smoothZ (1 / 2) 2 (smoothY (1 / 2) 2 (smoothX (1 / 2) 2
      (sampleVolume 2 0 (Real.pi / 2)).val)) 1 0 0 = _
  simp only [smoothZ_pass0, smoothZ_pass1, smoothY_pass0, smoothY_pass1,
    smoothX_pass0, smoothX_pass1, fkv000, fkv100, fkv010, fkv001, fkv110,
    fkv101, fkv011, fkv111]
  ring

theorem smv010 : (preExtractionVolume 2 0 (Real.pi / 2)).val 0 1 0 =
    1 - 5 * mu + 9 * mu ^ 2 - 6 * mu ^ 3 := by
  show smoothZ (1 / 2) 2 (smoothY (1 / 2) 2 (smoothX (1 / 2) 2
      (sampleVolume 2 0 (Real.pi / 2)).val)) 0 1 0 = _
  simp only [smoothZ_pass0, smoothZ_pass1, smoothY_pass0, smoothY_pass1,
    smoothX_pass0, smoothX_pass1, fkv000, fkv100, fkv010, fkv001, fkv110,
    fkv101, fkv011, fkv111]
  ring

theorem smv001 : (preExtractionVolume 2 0 (Real.pi / 2)).val 0 0 1 =
    1 - 5 * mu + 9 * mu ^ 2 - 6 * mu ^ 3 := by
  show smoothZ (1 / 2) 2 (smoothY (1 / 2) 2 (smoothX (1 / 2) 2
      (sampleVolume 2 0 (Real.pi / 2)).val)) 0 0 1 = _
  simp only [smoothZ_pass0, smoothZ_pass1, smoothY_pass0, smoothY_pass1,
    smoothX_pass0, smoothX_pass1, fkv000, fkv100, fkv010, fkv001, fkv110,
    fkv101, fkv011, fkv111]
  ring

theorem smv110 : (preExtractionVolume 2 0 (Real.pi / 2)).val 1 1 0 =
    -(1 - 5 * mu + 9 * mu ^ 2 - 6 * mu ^ 3) := by
  show smoothZ (1 / 2) 2 (smoothY (1 / 2) 2 (smoothX (1 / 2) 2
      (sampleVolume 2 0 (Real.pi / 2)).val)) 1 1 0 = _
  simp only [smoothZ_pass0, smoothZ_pass1, smoothY_pass0, smoothY_pass1,
    smoothX_pass0, smoothX_pass1, fkv000, fkv100, fkv010, fkv001, fkv110,
    fkv101, fkv011, fkv111]
  ring

theorem smv101 : (preExtractionVolume 2 0 (Real.pi / 2)).val 1 0 1 =
    -(1 - 5 * mu + 9 * mu ^ 2 - 6 * mu ^ 3) := by
  show smoothZ (1 / 2) 2 (smoothY (1 / 2) 2 (smoothX (1 / 2) 2
      (sampleVolume 2 0 (Real.pi / 2)).val)) 1 0 1 = _
  simp only [smoothZ_pass0, smoothZ_pass1, smoothY_pass0, smoothY_pass1,
    smoothX_pass0, smoothX_pass1, fkv000, fkv100, fkv010, fkv001, fkv110,
    fkv101, fkv011, fkv111]
  ring

theorem smv011 : (preExtractionVolume 2 0 (Real.pi / 2)).val 0 1 1 =
    -(1 - 5 * mu + 9 * mu ^ 2 - 6 * mu ^ 3) := by
  show smoothZ (1 / 2) 2 (smoothY (1 / 2) 2 (smoothX (1 / 2) 2
      (sampleVolume 2 0 (Real.pi / 2)).val)) 0 1 1 = _
  simp only [smoothZ_pass0, smoothZ_pass1, smoothY_pass0, smoothY_pass1,
    smoothX_pass0, smoothX_pass1, fkv000, fkv100, fkv010, fkv001, fkv110,
    fkv101, fkv011, fkv111]
  ring

theorem smv111 : (preExtractionVolume 2 0 (Real.pi / 2)).val 1 1 1 =
    -(3 * mu - 9 * mu ^ 2 + 6 * mu ^ 3) := by
  show smoothZ (1 / 2) 2 (smoothY (1 / 2) 2 (smoothX (1 / 2) 2
      (sampleVolume 2 0 (Real.pi / 2)).val)) 1 1 1 = _
  simp only [smoothZ_pass0, smoothZ_pass1, smoothY_pass0, smoothY_pass1,
    smoothX_pass0, smoothX_pass1, fkv000, fkv100, fkv010, fkv001, fkv110,
    fkv101, fkv011, fkv111]
  ring

theorem A_pos : 0 < 3 * mu - 9 * mu ^ 2 + 6 * mu ^ 3 := by
  have h1 : (0 : ℝ) < 1 - mu := by nlinarith [mu_lt_half]
  have h2 : (0 : ℝ) < 1 - 2 * mu := by nlinarith [mu_lt_half]
  nlinarith [mul_pos (mul_pos mu_pos h1) h2]

theorem A_lt_half : 3 * mu - 9 * mu ^ 2 + 6 * mu ^ 3 < 1 / 2 := by
  nlinarith [mu_pos, mu_le, sq_nonneg mu, mul_nonneg (le_of_lt mu_pos) (sq_nonneg mu)]

theorem B_gt_half : 1 / 2 < 1 - 5 * mu + 9 * mu ^ 2 - 6 * mu ^ 3 := by
  nlinarith [mu_pos, mu_le, sq_nonneg mu, sq_nonneg (mu - 3 / 25),
    mul_nonneg (sub_nonneg.2 mu_le) (sq_nonneg mu),
    mul_nonneg (sub_nonneg.2 mu_le) (sq_nonneg (mu - 3 / 25))]

theorem B_pos : 0 < 1 - 5 * mu + 9 * mu ^ 2 - 6 * mu ^ 3 :=
  lt_trans (by norm_num) B_gt_half

/-- At resolution 2 on [0, pi/2] with isovalue 1/2, the single cube of the
smoothed volume classifies to configuration 229. -/
theorem fk_config :
    cubeConfig (preExtractionVolume 2 0 (Real.pi / 2)).val (1 / 2) 0 0 0 = 229 := by
  have c0 : insideB (preExtractionVolume 2 0 (Real.pi / 2)).val (1 / 2) 0 0 0 0 = true := by
    rw [insideB, decide_eq_true_eq]
    show (preExtractionVolume 2 0 (Real.pi / 2)).val 0 0 0 < 1 / 2
    rw [smv000]
    linarith [A_lt_half]
  have c1 : insideB (preExtractionVolume 2 0 (Real.pi / 2)).val (1 / 2) 0 0 0 1 = false := by
    rw [insideB, decide_eq_false_iff_not, not_lt]
    show 1 / 2 ≤ (preExtractionVolume 2 0 (Real.pi / 2)).val 1 0 0
    rw [smv100]
    linarith [B_gt_half]
  have c2 : insideB (preExtractionVolume 2 0 (Real.pi / 2)).val (1 / 2) 0 0 0 2 = true := by
    rw [insideB, decide_eq_true_eq]
    show (preExtractionVolume 2 0 (Real.pi / 2)).val 1 1 0 < 1 / 2
    rw [smv110]
    linarith [B_pos]
  have c3 : insideB (preExtractionVolume 2 0 (Real.pi / 2)).val (1 / 2) 0 0 0 3 = false := by
    rw [insideB, decide_eq_false_iff_not, not_lt]
    show 1 / 2 ≤ (preExtractionVolume 2 0 (Real.pi / 2)).val 0 1 0
    rw [smv010]
    linarith [B_gt_half]
  have c4 : insideB (preExtractionVolume 2 0 (Real.pi / 2)).val (1 / 2) 0 0 0 4 = false := by
    rw [insideB, decide_eq_false_iff_not, not_lt]
    show 1 / 2 ≤ (preExtractionVolume 2 0 (Real.pi / 2)).val 0 0 1
    rw [smv001]
    linarith [B_gt_half]
  have c5 : insideB (preExtractionVolume 2 0 (Real.pi / 2)).val (1 / 2) 0 0 0 5 = true := by
    rw [insideB, decide_eq_true_eq]
    show (preExtractionVolume 2 0 (Real.pi / 2)).val 1 0 1 < 1 / 2
    rw [smv101]
    linarith [B_pos]
  have c6 : insideB (preExtractionVolume 2 0 (Real.pi / 2)).val (1 / 2) 0 0 0 6 = true := by
    rw [insideB, decide_eq_true_eq]
    show (preExtractionVolume 2 0 (Real.pi / 2)).val 1 1 1 < 1 / 2
    rw [smv111]
    linarith [A_pos]
  have c7 : insideB (preExtractionVolume 2 0 (Real.pi / 2)).val (1 / 2) 0 0 0 7 = true := by
    rw [insideB, decide_eq_true_eq]
    show (preExtractionVolume 2 0 (Real.pi / 2)).val 0 1 1 < 1 / 2
    rw [smv011]
    linarith [B_pos]
  rw [cubeConfig, c0, c1, c2, c3, c4, c5, c6, c7]
  rfl

theorem cubesList_two : cubesList 2 = [(0, 0, 0)] := by decide

theorem flatMap_nil_of_forall {β γ : Type} (l : List β) (f : β → List γ)
    (h : ∀ c ∈ l, f c = []) : l.flatMap f = [] := by
  induction l with
  | nil => rfl
  | cons a t ih =>
      rw [List.flatMap_cons, h a (List.mem_cons_self a t),
        ih fun c hc => h c (List.mem_cons_of_mem a hc)]
      rfl

theorem mcFacesAux_nil_of_forall (v : ℕ → ℕ → ℕ → ℝ) (iso : ℝ)
    (cubes : List (ℕ × ℕ × ℕ))
    (h : ∀ c ∈ cubes, cubeFacesLocal (cubeConfig v iso c.1 c.2.1 c.2.2) = []) :
    ∀ off, mcFacesAux v iso cubes off = [] := by
  induction cubes with
  | nil => intro off; rfl
  | cons a t ih =>
      intro off
      rw [mcFacesAux, h a (List.mem_cons_self a t),
        ih (fun c hc => h c (List.mem_cons_of_mem a hc)) _]
      rfl

theorem cornerOffset_le (c : ℕ) :
    (cornerOffset c).1 ≤ 1 ∧ (cornerOffset c).2.1 ≤ 1 ∧ (cornerOffset c).2.2 ≤ 1 := by
  rcases c with _|_|_|_|_|_|_|c
  · exact ⟨by decide, by decide, by decide⟩
  · exact ⟨by decide, by decide, by decide⟩
  · exact ⟨by decide, by decide, by decide⟩
  · exact ⟨by decide, by decide, by decide⟩
  · exact ⟨by decide, by decide, by decide⟩
  · exact ⟨by decide, by decide, by decide⟩
  · exact ⟨by decide, by decide, by decide⟩
  · exact ⟨Nat.zero_le 1, Nat.le_refl 1, Nat.le_refl 1⟩

theorem mem_cubesList {n : ℕ} {c : ℕ × ℕ × ℕ} (h : c ∈ cubesList n) :
    c.1 < n - 1 ∧ c.2.1 < n - 1 ∧ c.2.2 < n - 1 := by
  rw [cubesList] at h
  simp only [List.mem_flatMap, List.mem_map, List.mem_range] at h
  obtain ⟨i, hi, j, hj, k, hk, rfl⟩ := h
  exact ⟨hi, hj, hk⟩

theorem cubeConfig_eq_255 {v : ℕ → ℕ → ℕ → ℝ} {iso : ℝ} {i j k : ℕ}
    (h : ∀ c < 8, cornerValue v i j k c < iso) :
    cubeConfig v iso i j k = 255 := by
  have t : ∀ c, c < 8 → insideB v iso i j k c = true := fun c hc =>
    decide_eq_true (h c hc)
  rw [cubeConfig, t 0 (by norm_num), t 1 (by norm_num), t 2 (by norm_num),
    t 3 (by norm_num), t 4 (by norm_num), t 5 (by norm_num), t 6 (by norm_num),
    t 7 (by norm_num)]
  rfl

theorem cubeConfig_eq_zero {v : ℕ → ℕ → ℕ → ℝ} {iso : ℝ} {i j k : ℕ}
    (h : ∀ c < 8, iso ≤ cornerValue v i j k c) :
    cubeConfig v iso i j k = 0 := by
  have t : ∀ c, c < 8 → insideB v iso i j k c = false := fun c hc => by
    rw [insideB, decide_eq_false_iff_not, not_lt]
    exact h c hc
  rw [cubeConfig, t 0 (by norm_num), t 1 (by norm_num), t 2 (by norm_num),
    t 3 (by norm_num), t 4 (by norm_num), t 5 (by norm_num), t 6 (by norm_num),
    t 7 (by norm_num)]
  rfl

theorem cutEdgesList_zero : cutEdgesList 0 = [] := by decide
theorem cutEdgesList_full : cutEdgesList 255 = [] := by decide
theorem cubeFacesLocal_zero : cubeFacesLocal 0 = [] := by decide
theorem cubeFacesLocal_full : cubeFacesLocal 255 = [] := by decide

/-- If every sample of the smoothed volume lies strictly on one side of the
isovalue (all below, or all at-or-above), generation succeeds with the empty
mesh: no vertices and no faces. -/
theorem one_sided_ok_empty (resolution : ℕ) (lo hi iso : ℝ)
    (h2 : 2 ≤ resolution)
    (hside :
      (∀ i j k, i < resolution → j < resolution → k < resolution →
        (preExtractionVolume resolution lo hi).val i j k < iso) ∨
      (∀ i j k, i < resolution → j < resolution → k < resolution →
        iso ≤ (preExtractionVolume resolution lo hi).val i j k)) :
    generate_surface resolution lo hi iso = Except.ok ⟨[], []⟩ := by
  rw [generate_surface_eq resolution lo hi iso h2]
  have hcfg : ∀ c ∈ cubesList resolution,
      cubeConfig (preExtractionVolume resolution lo hi).val iso c.1 c.2.1 c.2.2 = 255 ∨
      cubeConfig (preExtractionVolume resolution lo hi).val iso c.1 c.2.1 c.2.2 = 0 := by
    intro c hc
    obtain ⟨hi1, hj1, hk1⟩ := mem_cubesList hc
    have hb : ∀ d : ℕ, c.1 + (cornerOffset d).1 < resolution ∧
        c.2.1 + (cornerOffset d).2.1 < resolution ∧
        c.2.2 + (cornerOffset d).2.2 < resolution := by
      intro d
      obtain ⟨o1, o2, o3⟩ := cornerOffset_le d
      exact ⟨by omega, by omega, by omega⟩
    rcases hside with hlt | hge
    · exact Or.inl (cubeConfig_eq_255 fun d _ =>
        hlt _ _ _ (hb d).1 (hb d).2.1 (hb d).2.2)
    · exact Or.inr (cubeConfig_eq_zero fun d _ =>
        hge _ _ _ (hb d).1 (hb d).2.1 (hb d).2.2)
  have hverts : ((cubesList resolution).flatMap fun c =>
      cubeVerts (preExtractionVolume resolution lo hi).val iso
        (axisSpacing resolution lo hi) (axisSpacing resolution lo hi)
        (axisSpacing resolution lo hi) c.1 c.2.1 c.2.2) = [] := by
    apply flatMap_nil_of_forall
    intro c hc
    rw [cubeVerts]
    rcases hcfg c hc with h | h <;> rw [h]
    · rw [cutEdgesList_full]; rfl
    · rw [cutEdgesList_zero]; rfl
  have hfaces : mcFacesAux (preExtractionVolume resolution lo hi).val iso
      (cubesList resolution) 0 = [] := by
    apply mcFacesAux_nil_of_forall
    intro c hc
    rcases hcfg c hc with h | h <;> rw [h]
    · exact cubeFacesLocal_full
    · exact cubeFacesLocal_zero
  simp [marchingCubes, translateMesh, hverts, hfaces]

theorem kernelSum_pos (sigma : ℝ) : 0 < kernelSum sigma :=
  Finset.sum_pos (fun _ _ => Real.exp_pos _)
    (Finset.nonempty_range_iff.mpr (by omega))

theorem smoothX_const (sigma : ℝ) (n : ℕ) (c : ℝ) :
    smoothX sigma n (fun _ _ _ => c) = fun _ _ _ => c := by
  funext i j k
  simp only [smoothX]
  have hsum : (∑ m ∈ Finset.range (2 * kernelRadius sigma + 1),
      gweight sigma ((m : ℤ) - (kernelRadius sigma : ℤ)) * c) =
      kernelSum sigma * c := by
    rw [kernelSum, Finset.sum_mul]
  rw [hsum, mul_div_cancel_left₀ c (ne_of_gt (kernelSum_pos sigma))]

theorem smoothY_const (sigma : ℝ) (n : ℕ) (c : ℝ) :
    smoothY sigma n (fun _ _ _ => c) = fun _ _ _ => c := by
  funext i j k
  simp only [smoothY]
  have hsum : (∑ m ∈ Finset.range (2 * kernelRadius sigma + 1),
      gweight sigma ((m : ℤ) - (kernelRadius sigma : ℤ)) * c) =
      kernelSum sigma * c := by
    rw [kernelSum, Finset.sum_mul]
  rw [hsum, mul_div_cancel_left₀ c (ne_of_gt (kernelSum_pos sigma))]

theorem smoothZ_const (sigma : ℝ) (n : ℕ) (c : ℝ) :
    smoothZ sigma n (fun _ _ _ => c) = fun _ _ _ => c := by
  funext i j k
  simp only [smoothZ]
  have hsum : (∑ m ∈ Finset.range (2 * kernelRadius sigma + 1),
      gweight sigma ((m : ℤ) - (kernelRadius sigma : ℤ)) * c) =
      kernelSum sigma * c := by
    rw [kernelSum, Finset.sum_mul]
  rw [hsum, mul_div_cancel_left₀ c (ne_of_gt (kernelSum_pos sigma))]

theorem sample_const (resolution : ℕ) (a : ℝ) :
    (sampleVolume resolution a a).val = fun _ _ _ => fischer_koch_s a a a := by
  funext i j k
  simp [sampleVolume, linspace]

theorem preExt_const (resolution : ℕ) (a : ℝ) :
    (preExtractionVolume resolution a a).val = fun _ _ _ => fischer_koch_s a a a := by
  show smoothZ (1 / 2) resolution (smoothY (1 / 2) resolution
      (smoothX (1 / 2) resolution (sampleVolume resolution a a).val)) = _
  rw [sample_const, smoothX_const, smoothY_const, smoothZ_const]

theorem fischer_koch_s_ge (x y z : ℝ) : -3 ≤ fischer_koch_s x y z := by
  have tb : ∀ a b c : ℝ, -1 ≤ Real.cos a * Real.sin b * Real.cos c := by
    intro a b c
    have h1 : |Real.cos a * Real.sin b * Real.cos c| ≤ 1 := by
      rw [abs_mul, abs_mul]
      have ha := Real.abs_cos_le_one a
      have hb := Real.abs_sin_le_one b
      have hc := Real.abs_cos_le_one c
      have p1 : |Real.cos a| * |Real.sin b| ≤ 1 :=
        mul_le_one ha (abs_nonneg _) hb
      exact mul_le_one p1 (abs_nonneg _) hc
    linarith [(abs_le.mp h1).1]
  rw [fischer_koch_s]
  have h1 := tb (2 * x) y z
  have h2 := tb (2 * y) z x
  have h3 := tb (2 * z) x y
  linarith

/-- C2 counterexample: at resolution 2 on the valid box [0, pi/2] with
isovalue 1/2, neither the sampled nor the smoothed field ever attains the
isovalue, yet generation succeeds with a non-empty mesh: the claim that such
an input yields an empty mesh is false. -/
theorem empty_isosurface_counterexample :
    (0 : ℝ) < Real.pi / 2 ∧
    avoidsIso (sampleVolume 2 0 (Real.pi / 2)) (1 / 2) ∧
    avoidsIso (preExtractionVolume 2 0 (Real.pi / 2)) (1 / 2) ∧
    facesCount (generate_surface 2 0 (Real.pi / 2) (1 / 2)) ≠ 0 := by
  refine ⟨by positivity, ?_, ?_, ?_⟩
  · intro i j k hi hj hk
    have hi2 : i < 2 := hi
    have hj2 : j < 2 := hj
    have hk2 : k < 2 := hk
    interval_cases i <;> interval_cases j <;> interval_cases k <;>
      simp only [fkv000, fkv100, fkv010, fkv001, fkv110, fkv101, fkv011,
        fkv111] <;> norm_num
  · intro i j k hi hj hk
    have hi2 : i < 2 := hi
    have hj2 : j < 2 := hj
    have hk2 : k < 2 := hk
    interval_cases i <;> interval_cases j <;> interval_cases k <;>
      simp only [smv000, smv100, smv010, smv001, smv110, smv101, smv011,
        smv111] <;>
      (intro heq; nlinarith [A_pos, A_lt_half, B_gt_half, B_pos])
  · rw [generate_surface_eq 2 0 (Real.pi / 2) (1 / 2) (by norm_num)]
    simp only [facesCount, translateMesh, marchingCubes, cubesList_two,
      mcFacesAux]
    rw [show cubeConfig (preExtractionVolume 2 0 (Real.pi / 2)).val (1 / 2)
        (0, 0, 0).1 (0, 0, 0).2.1 (0, 0, 0).2.2 = 229 from fk_config]
    decide

/-- C2 (amended): when every smoothed sample lies strictly on one side of
the requested isovalue, surface generation succeeds and returns the empty
mesh (zero vertices, zero faces) — a normal result, not an error.  (As
stated, the claim is false: samples may straddle the isovalue without ever
attaining it, producing a non-empty mesh; see the counterexample.) -/
theorem empty_isosurface_ok (resolution : ℕ) (lo hi iso : ℝ)
    (h2 : 2 ≤ resolution)
    (hside :
      (∀ i j k, i < resolution → j < resolution → k < resolution →
        (preExtractionVolume resolution lo hi).val i j k < iso) ∨
      (∀ i j k, i < resolution → j < resolution → k < resolution →
        iso ≤ (preExtractionVolume resolution lo hi).val i j k)) :
    generate_surface resolution lo hi iso = Except.ok ⟨[], []⟩ :=
  one_sided_ok_empty resolution lo hi iso h2 hside

/-- Witness for C2 (amended): on the degenerate box [0, 0] every smoothed
sample is 0 < 1, and generation at isovalue 1 returns the empty mesh. -/
theorem empty_isosurface_ok_witness :
    generate_surface 2 0 0 1 = Except.ok ⟨[], []⟩ :=
  empty_isosurface_ok 2 0 0 1 (by norm_num) (Or.inl (by
    intro i j k _ _ _
    rw [preExt_const]
    show fischer_koch_s 0 0 0 < 1
    norm_num [fischer_koch_s]))

/-- C3 counterexample: resolution 1 fails with the spacing index error, not
`InvalidResolution` — and only after the sampling stage has produced its
1³-entry volume; bounds (2, 2) does not fail with `InvalidBounds` at all
(isovalue -4 yields a successful empty mesh). -/
theorem validation_counterexample :
    generate_surface 1 0 1 0 = Except.error GenError.indexError ∧
    generate_surface 1 0 1 0 ≠ Except.error GenError.invalidResolution ∧
    (sampleVolume 1 0 1).entries.length = 1 ∧
    generate_surface 2 2 2 (-4) = Except.ok ⟨[], []⟩ ∧
    generate_surface 2 2 2 (-4) ≠ Except.error GenError.invalidBounds := by
  have h1 : generate_surface 1 0 1 0 = Except.error GenError.indexError := by
    simp [generate_surface]
  have h4 : generate_surface 2 2 2 (-4) = Except.ok ⟨[], []⟩ :=
    one_sided_ok_empty 2 2 2 (-4) (by norm_num) (Or.inr (by
      intro i j k _ _ _
      rw [preExt_const]
      show (-4 : ℝ) ≤ fischer_koch_s 2 2 2
      linarith [fischer_koch_s_ge 2 2 2]))
  refine ⟨h1, by rw [h1]; simp, ?_, h4, by rw [h4]; simp⟩
  simp [ScalarVolume.entries, sampleVolume]

/-- C3 (amended): `generate_surface` performs no input validation.  A
resolution below 2 fails with an index error raised while reading the
spacing, after the sampling stage has already produced its resolution³
samples; degenerate bounds (lo = hi) are not rejected (generation can
succeed with an empty mesh); and sigma is not a parameter of the pipeline,
so no sigma validation exists. -/
theorem no_validation_amended :
    (∀ lo hi iso : ℝ, generate_surface 1 lo hi iso =
      Except.error GenError.indexError) ∧
    (∀ lo hi : ℝ, (sampleVolume 1 lo hi).entries.length = 1) ∧
    generate_surface 2 2 2 (-4) = Except.ok ⟨[], []⟩ := by
  refine ⟨fun lo hi iso => by simp [generate_surface],
    fun lo hi => by simp [ScalarVolume.entries, sampleVolume], ?_⟩
  exact one_sided_ok_empty 2 2 2 (-4) (by norm_num) (Or.inr (by
    intro i j k _ _ _
    rw [preExt_const]
    show (-4 : ℝ) ≤ fischer_koch_s 2 2 2
    linarith [fischer_koch_s_ge 2 2 2]))

theorem triTable_length : triTable.length = 256 := by decide

/-- Every edge listed by the triangulation table for a configuration is a
cut edge of that configuration. -/
theorem table_edges_cut : ∀ cfg < 256, ∀ e ∈ tbl cfg, e ∈ cutEdgesList cfg := by
  decide

/-- Every triangle of the triangulation table has three pairwise distinct
edges. -/
theorem table_triples_distinct : ∀ cfg < 256, ∀ t ∈ toTriples (tbl cfg),
    t.1 ≠ t.2.1 ∧ t.1 ≠ t.2.2 ∧ t.2.1 ≠ t.2.2 := by
  decide

theorem tbl_big (cfg : ℕ) (h : 256 ≤ cfg) : tbl cfg = [] := by
  simp only [tbl]
  exact List.getD_eq_default _ _ (by rw [triTable_length]; exact h)

theorem toTriples_mem : ∀ (l : List ℕ) (t : ℕ × ℕ × ℕ), t ∈ toTriples l →
    t.1 ∈ l ∧ t.2.1 ∈ l ∧ t.2.2 ∈ l
  | [], t, h => by simp [toTriples] at h
  | [a], t, h => by simp [toTriples] at h
  | [a, b], t, h => by simp [toTriples] at h
  | a :: b :: c :: rest, t, h => by
      simp only [toTriples] at h
      rcases List.mem_cons.mp h with h | h
      · subst h
        exact ⟨List.mem_cons_self _ _,
          List.mem_cons_of_mem _ (List.mem_cons_self _ _),
          List.mem_cons_of_mem _ (List.mem_cons_of_mem _ (List.mem_cons_self _ _))⟩
      · obtain ⟨h1, h2, h3⟩ := toTriples_mem rest t h
        exact ⟨List.mem_cons_of_mem _ (List.mem_cons_of_mem _ (List.mem_cons_of_mem _ h1)),
          List.mem_cons_of_mem _ (List.mem_cons_of_mem _ (List.mem_cons_of_mem _ h2)),
          List.mem_cons_of_mem _ (List.mem_cons_of_mem _ (List.mem_cons_of_mem _ h3))⟩

theorem cubeConfig_lt {α : Type} [LinearOrder α] (v : ℕ → ℕ → ℕ → α) (iso : α)
    (i j k : ℕ) : cubeConfig v iso i j k < 256 := by
  have hb : ∀ b : Bool, b.toNat ≤ 1 := fun b => by cases b <;> simp
  simp only [cubeConfig]
  have h0 := hb (insideB v iso i j k 0)
  have h1 := hb (insideB v iso i j k 1)
  have h2 := hb (insideB v iso i j k 2)
  have h3 := hb (insideB v iso i j k 3)
  have h4 := hb (insideB v iso i j k 4)
  have h5 := hb (insideB v iso i j k 5)
  have h6 := hb (insideB v iso i j k 6)
  have h7 := hb (insideB v iso i j k 7)
  omega

/-- Each cube-local face references only indices of that cube's vertex
list, and its three indices are pairwise distinct. -/
theorem cubeFacesLocal_ok (cfg : ℕ) :
    ∀ f ∈ cubeFacesLocal cfg,
      (f.1 < (cutEdgesList cfg).length ∧ f.2.1 < (cutEdgesList cfg).length ∧
        f.2.2 < (cutEdgesList cfg).length) ∧
      f.1 ≠ f.2.1 ∧ f.1 ≠ f.2.2 ∧ f.2.1 ≠ f.2.2 := by
  intro f hf
  by_cases hc : cfg < 256
  · simp only [cubeFacesLocal, List.mem_map] at hf
    obtain ⟨t, ht, rfl⟩ := hf
    obtain ⟨m1, m2, m3⟩ := toTriples_mem (tbl cfg) t ht
    have e1 := table_edges_cut cfg hc t.1 m1
    have e2 := table_edges_cut cfg hc t.2.1 m2
    have e3 := table_edges_cut cfg hc t.2.2 m3
    obtain ⟨d1, d2, d3⟩ := table_triples_distinct cfg hc t ht
    refine ⟨⟨List.indexOf_lt_length.mpr e1, List.indexOf_lt_length.mpr e2,
      List.indexOf_lt_length.mpr e3⟩, ?_, ?_, ?_⟩
    · exact fun h => d1 ((List.indexOf_inj e1 e2).mp h)
    · exact fun h => d2 ((List.indexOf_inj e1 e3).mp h)
    · exact fun h => d3 ((List.indexOf_inj e2 e3).mp h)
  · exfalso
    rw [cubeFacesLocal, tbl_big cfg (by omega)] at hf
    simp [toTriples] at hf

/-- Faces accumulated over a cube list reference only vertex indices below
the total vertex count, and stay pairwise distinct. -/
theorem mcFacesAux_ok {α : Type} [LinearOrderedField α] (v : ℕ → ℕ → ℕ → α)
    (iso : α) :
    ∀ (cubes : List (ℕ × ℕ × ℕ)) (off : ℕ) (f : ℕ × ℕ × ℕ),
      f ∈ mcFacesAux v iso cubes off →
      (f.1 < off + ((cubes.map fun c =>
          (cutEdgesList (cubeConfig v iso c.1 c.2.1 c.2.2)).length).sum) ∧
       f.2.1 < off + ((cubes.map fun c =>
          (cutEdgesList (cubeConfig v iso c.1 c.2.1 c.2.2)).length).sum) ∧
       f.2.2 < off + ((cubes.map fun c =>
          (cutEdgesList (cubeConfig v iso c.1 c.2.1 c.2.2)).length).sum)) ∧
      f.1 ≠ f.2.1 ∧ f.1 ≠ f.2.2 ∧ f.2.1 ≠ f.2.2 := by
  intro cubes
  induction cubes with
  | nil => intro off f hf; simp [mcFacesAux] at hf
  | cons a t ih =>
      intro off f hf
      simp only [mcFacesAux] at hf
      rcases List.mem_append.mp hf with hf | hf
      · simp only [List.mem_map] at hf
        obtain ⟨g, hg, rfl⟩ := hf
        obtain ⟨⟨b1, b2, b3⟩, d1, d2, d3⟩ := cubeFacesLocal_ok _ g hg
        simp only [List.map_cons, List.sum_cons]
        refine ⟨⟨by omega, by omega, by omega⟩, by omega, by omega, by omega⟩
      · obtain ⟨⟨b1, b2, b3⟩, d1, d2, d3⟩ := ih _ f hf
        simp only [List.map_cons, List.sum_cons]
        exact ⟨⟨by omega, by omega, by omega⟩, d1, d2, d3⟩

/-- Extractor-level statement: every face of the extracted mesh indexes
into the vertex list, with pairwise distinct indices. -/
theorem marchingCubes_faces_ok {α : Type} [LinearOrderedField α] (n : ℕ)
    (v : ℕ → ℕ → ℕ → α) (iso s1 s2 s3 : α) :
    ∀ f ∈ (marchingCubes n v iso s1 s2 s3).faces,
      (f.1 < (marchingCubes n v iso s1 s2 s3).vertices.length ∧
       f.2.1 < (marchingCubes n v iso s1 s2 s3).vertices.length ∧
       f.2.2 < (marchingCubes n v iso s1 s2 s3).vertices.length) ∧
      f.1 ≠ f.2.1 ∧ f.1 ≠ f.2.2 ∧ f.2.1 ≠ f.2.2 := by
  intro f hf
  have h := mcFacesAux_ok v iso (cubesList n) 0 f hf
  have hlen : (marchingCubes n v iso s1 s2 s3).vertices.length =
      ((cubesList n).map fun c =>
        (cutEdgesList (cubeConfig v iso c.1 c.2.1 c.2.2)).length).sum := by
    simp only [marchingCubes, List.length_flatMap]
    congr 1
    apply List.map_congr_left
    intro c _
    simp [cubeVerts]
  rw [hlen]
  simpa using h

/-- C4: every face of every mesh returned by surface generation is a triple
of valid indices into the vertex sequence, pairwise distinct (no degenerate
triangle is ever emitted). -/
theorem mesh_faces_valid (resolution : ℕ) (lo hi iso : ℝ) (m : Mesh ℝ)
    (h : generate_surface resolution lo hi iso = Except.ok m) :
    ∀ f ∈ m.faces,
      (f.1 < m.vertices.length ∧ f.2.1 < m.vertices.length ∧
        f.2.2 < m.vertices.length) ∧
      f.1 ≠ f.2.1 ∧ f.1 ≠ f.2.2 ∧ f.2.1 ≠ f.2.2 := by
  by_cases h2 : 2 ≤ resolution
  · rw [generate_surface_eq resolution lo hi iso h2] at h
    injection h with h
    subst h
    intro f hf
    have hface : f ∈ (marchingCubes resolution
        (preExtractionVolume resolution lo hi).val iso
        (axisSpacing resolution lo hi) (axisSpacing resolution lo hi)
        (axisSpacing resolution lo hi)).faces := hf
    have hok := marchingCubes_faces_ok resolution
      (preExtractionVolume resolution lo hi).val iso
      (axisSpacing resolution lo hi) (axisSpacing resolution lo hi)
      (axisSpacing resolution lo hi) f hface
    have hlen : (translateMesh (marchingCubes resolution
        (preExtractionVolume resolution lo hi).val iso
        (axisSpacing resolution lo hi) (axisSpacing resolution lo hi)
        (axisSpacing resolution lo hi)) lo).vertices.length =
        (marchingCubes resolution (preExtractionVolume resolution lo hi).val
          iso (axisSpacing resolution lo hi) (axisSpacing resolution lo hi)
          (axisSpacing resolution lo hi)).vertices.length := by
      simp [translateMesh]
    rw [show (translateMesh (marchingCubes resolution
        (preExtractionVolume resolution lo hi).val iso
        (axisSpacing resolution lo hi) (axisSpacing resolution lo hi)
        (axisSpacing resolution lo hi)) lo).faces =
        (marchingCubes resolution (preExtractionVolume resolution lo hi).val
          iso (axisSpacing resolution lo hi) (axisSpacing resolution lo hi)
          (axisSpacing resolution lo hi)).faces from rfl] at hf
    rw [hlen]
    exact hok
  · exfalso
    simp [generate_surface, h2] at h

theorem fk_gen_ok : generate_surface 2 0 (Real.pi / 2) (1 / 2) =
    Except.ok fkMesh := by
  have h := generate_surface_eq 2 0 (Real.pi / 2) (1 / 2) (by norm_num)
  simp only [fkMesh, h]

theorem fkMesh_faces :
    fkMesh.faces = [(7, 5, 4), (7, 8, 5), (7, 1, 8), (2, 8, 1), (0, 6, 3)] := by
  have h := fk_gen_ok
  rw [generate_surface_eq 2 0 (Real.pi / 2) (1 / 2) (by norm_num)] at h
  injection h with h
  rw [← h]
  show (mcFacesAux (preExtractionVolume 2 0 (Real.pi / 2)).val (1 / 2)
    (cubesList 2) 0) = _
  rw [cubesList_two]
  simp only [mcFacesAux]
  rw [show cubeConfig (preExtractionVolume 2 0 (Real.pi / 2)).val (1 / 2)
      (0, 0, 0).1 (0, 0, 0).2.1 (0, 0, 0).2.2 = 229 from fk_config]
  decide

theorem fkMesh_vertices_length : fkMesh.vertices.length = 9 := by
  have h := fk_gen_ok
  rw [generate_surface_eq 2 0 (Real.pi / 2) (1 / 2) (by norm_num)] at h
  injection h with h
  rw [← h]
  show ((marchingCubes 2 (preExtractionVolume 2 0 (Real.pi / 2)).val (1 / 2)
      (axisSpacing 2 0 (Real.pi / 2)) (axisSpacing 2 0 (Real.pi / 2))
      (axisSpacing 2 0 (Real.pi / 2))).vertices.map _).length = 9
  rw [List.length_map]
  simp only [marchingCubes, cubesList_two, List.flatMap_cons, List.flatMap_nil,
    List.append_nil, cubeVerts, List.length_map]
  rw [show cubeConfig (preExtractionVolume 2 0 (Real.pi / 2)).val (1 / 2)
      (0, 0, 0).1 (0, 0, 0).2.1 (0, 0, 0).2.2 = 229 from fk_config]
  decide

theorem fk_face_mem : ((7, 5, 4) : ℕ × ℕ × ℕ) ∈ fkMesh.faces := by
  rw [fkMesh_faces]
  simp

/-- Witness for C4: the first face of the mesh generated at resolution 2 on
[0, pi/2] with isovalue 1/2 has valid, pairwise distinct indices. -/
theorem mesh_faces_valid_witness :
    ((7 < fkMesh.vertices.length ∧ 5 < fkMesh.vertices.length ∧
      4 < fkMesh.vertices.length) ∧
     (7 : ℕ) ≠ 5 ∧ (7 : ℕ) ≠ 4 ∧ (5 : ℕ) ≠ 4) :=
  mesh_faces_valid 2 0 (Real.pi / 2) (1 / 2) fkMesh fk_gen_ok (7, 5, 4) fk_face_mem

theorem clampT_bounds {α : Type} [LinearOrderedField α] (iso v0 v1 : α) :
    0 ≤ clampT iso v0 v1 ∧ clampT iso v0 v1 ≤ 1 :=
  ⟨le_max_left 0 _, max_le (by norm_num) (min_le_left 1 _)⟩

theorem lerp_between {α : Type} [LinearOrderedField α] (a b t : α)
    (h0 : 0 ≤ t) (h1 : t ≤ 1) :
    min a b ≤ a + t * (b - a) ∧ a + t * (b - a) ≤ max a b := by
  rcases le_total a b with h | h
  · rw [min_eq_left h, max_eq_right h]
    constructor <;> nlinarith
  · rw [min_eq_right h, max_eq_left h]
    constructor <;> nlinarith

/-- C5: every vertex emitted by the extractor comes from a cut edge, its
clamped interpolation parameter lies in [0, 1], the linearly interpolated
field value at the vertex stays within the two corner values of its edge
(no extrapolation), and each coordinate of the vertex lies between the
corresponding coordinates of the edge's two endpoints. -/
theorem extraction_no_extrapolation {α : Type} [LinearOrderedField α] (n : ℕ)
    (v : ℕ → ℕ → ℕ → α) (iso s1 s2 s3 : α) (p : α × α × α)
    (hp : p ∈ (marchingCubes n v iso s1 s2 s3).vertices) :
    ∃ i j k e, e < 12 ∧ cutB (cubeConfig v iso i j k) e = true ∧
      p = edgeVertex v iso s1 s2 s3 i j k e ∧
      (0 ≤ clampT iso (cornerValue v i j k (edgeEndpoints e).1)
          (cornerValue v i j k (edgeEndpoints e).2) ∧
        clampT iso (cornerValue v i j k (edgeEndpoints e).1)
          (cornerValue v i j k (edgeEndpoints e).2) ≤ 1) ∧
      (min (cornerValue v i j k (edgeEndpoints e).1)
          (cornerValue v i j k (edgeEndpoints e).2) ≤
        cornerValue v i j k (edgeEndpoints e).1 +
          clampT iso (cornerValue v i j k (edgeEndpoints e).1)
            (cornerValue v i j k (edgeEndpoints e).2) *
          (cornerValue v i j k (edgeEndpoints e).2 -
            cornerValue v i j k (edgeEndpoints e).1) ∧
        cornerValue v i j k (edgeEndpoints e).1 +
          clampT iso (cornerValue v i j k (edgeEndpoints e).1)
            (cornerValue v i j k (edgeEndpoints e).2) *
          (cornerValue v i j k (edgeEndpoints e).2 -
            cornerValue v i j k (edgeEndpoints e).1) ≤
        max (cornerValue v i j k (edgeEndpoints e).1)
          (cornerValue v i j k (edgeEndpoints e).2)) ∧
      (min (cornerPos s1 s2 s3 i j k (edgeEndpoints e).1).1
          (cornerPos s1 s2 s3 i j k (edgeEndpoints e).2).1 ≤ p.1 ∧
        p.1 ≤ max (cornerPos s1 s2 s3 i j k (edgeEndpoints e).1).1
          (cornerPos s1 s2 s3 i j k (edgeEndpoints e).2).1) ∧
      (min (cornerPos s1 s2 s3 i j k (edgeEndpoints e).1).2.1
          (cornerPos s1 s2 s3 i j k (edgeEndpoints e).2).2.1 ≤ p.2.1 ∧
        p.2.1 ≤ max (cornerPos s1 s2 s3 i j k (edgeEndpoints e).1).2.1
          (cornerPos s1 s2 s3 i j k (edgeEndpoints e).2).2.1) ∧
      (min (cornerPos s1 s2 s3 i j k (edgeEndpoints e).1).2.2
          (cornerPos s1 s2 s3 i j k (edgeEndpoints e).2).2.2 ≤ p.2.2 ∧
        p.2.2 ≤ max (cornerPos s1 s2 s3 i j k (edgeEndpoints e).1).2.2
          (cornerPos s1 s2 s3 i j k (edgeEndpoints e).2).2.2) := by
  simp only [marchingCubes, List.mem_flatMap] at hp
  obtain ⟨c, hc, hpc⟩ := hp
  simp only [cubeVerts, List.mem_map] at hpc
  obtain ⟨e, he, rfl⟩ := hpc
  rw [cutEdgesList, List.mem_filter, List.mem_range] at he
  obtain ⟨h0, h1⟩ := clampT_bounds iso
    (cornerValue v c.1 c.2.1 c.2.2 (edgeEndpoints e).1)
    (cornerValue v c.1 c.2.1 c.2.2 (edgeEndpoints e).2)
  exact ⟨c.1, c.2.1, c.2.2, e, he.1, he.2, rfl, ⟨h0, h1⟩,
    lerp_between _ _ _ h0 h1, lerp_between _ _ _ h0 h1,
    lerp_between _ _ _ h0 h1, lerp_between _ _ _ h0 h1⟩

theorem cfg_testVol : cubeConfig testVol (0 : ℚ) 0 0 0 = 153 := by decide

theorem testVol_vertices : (marchingCubes 2 testVol (0 : ℚ) 1 1 1).vertices =
    [edgeVertex testVol 0 1 1 1 0 0 0 0, edgeVertex testVol 0 1 1 1 0 0 0 2,
     edgeVertex testVol 0 1 1 1 0 0 0 4, edgeVertex testVol 0 1 1 1 0 0 0 6] := by
  have hunf : (marchingCubes 2 testVol (0 : ℚ) 1 1 1).vertices =
      (cubesList 2).flatMap fun c => cubeVerts testVol 0 1 1 1 c.1 c.2.1 c.2.2 :=
    rfl
  rw [hunf, cubesList_two]
  simp only [List.flatMap_cons, List.flatMap_nil, List.append_nil, cubeVerts]
  rw [show cubeConfig testVol (0 : ℚ) (0, 0, 0).1 (0, 0, 0).2.1 (0, 0, 0).2.2 =
      153 from cfg_testVol]
  rw [show cutEdgesList 153 = [0, 2, 4, 6] from by decide]
  rfl

theorem testVol_vertex_mem :
    edgeVertex testVol 0 1 1 1 0 0 0 0 ∈ (marchingCubes 2 testVol (0 : ℚ) 1 1 1).vertices := by
  rw [testVol_vertices]
  exact List.mem_cons_self _ _

/-- Witness for C5 on the rational test volume: the vertex the extractor
creates on edge 0 of its single cube satisfies all the interpolation
bounds. -/
theorem extraction_no_extrapolation_witness :
    ∃ i j k e, e < 12 ∧ cutB (cubeConfig testVol (0 : ℚ) i j k) e = true ∧
      edgeVertex testVol 0 1 1 1 0 0 0 0 = edgeVertex testVol 0 1 1 1 i j k e ∧
      (0 ≤ clampT (0 : ℚ) (cornerValue testVol i j k (edgeEndpoints e).1)
          (cornerValue testVol i j k (edgeEndpoints e).2) ∧
        clampT (0 : ℚ) (cornerValue testVol i j k (edgeEndpoints e).1)
          (cornerValue testVol i j k (edgeEndpoints e).2) ≤ 1) ∧
      (min (cornerValue testVol i j k (edgeEndpoints e).1)
          (cornerValue testVol i j k (edgeEndpoints e).2) ≤
        cornerValue testVol i j k (edgeEndpoints e).1 +
          clampT (0 : ℚ) (cornerValue testVol i j k (edgeEndpoints e).1)
            (cornerValue testVol i j k (edgeEndpoints e).2) *
          (cornerValue testVol i j k (edgeEndpoints e).2 -
            cornerValue testVol i j k (edgeEndpoints e).1) ∧
        cornerValue testVol i j k (edgeEndpoints e).1 +
          clampT (0 : ℚ) (cornerValue testVol i j k (edgeEndpoints e).1)
            (cornerValue testVol i j k (edgeEndpoints e).2) *
          (cornerValue testVol i j k (edgeEndpoints e).2 -
            cornerValue testVol i j k (edgeEndpoints e).1) ≤
        max (cornerValue testVol i j k (edgeEndpoints e).1)
          (cornerValue testVol i j k (edgeEndpoints e).2)) ∧
      (min (cornerPos (1 : ℚ) 1 1 i j k (edgeEndpoints e).1).1
          (cornerPos (1 : ℚ) 1 1 i j k (edgeEndpoints e).2).1 ≤
            (edgeVertex testVol 0 1 1 1 0 0 0 0).1 ∧
        (edgeVertex testVol 0 1 1 1 0 0 0 0).1 ≤
          max (cornerPos (1 : ℚ) 1 1 i j k (edgeEndpoints e).1).1
            (cornerPos (1 : ℚ) 1 1 i j k (edgeEndpoints e).2).1) ∧
      (min (cornerPos (1 : ℚ) 1 1 i j k (edgeEndpoints e).1).2.1
          (cornerPos (1 : ℚ) 1 1 i j k (edgeEndpoints e).2).2.1 ≤
            (edgeVertex testVol 0 1 1 1 0 0 0 0).2.1 ∧
        (edgeVertex testVol 0 1 1 1 0 0 0 0).2.1 ≤
          max (cornerPos (1 : ℚ) 1 1 i j k (edgeEndpoints e).1).2.1
            (cornerPos (1 : ℚ) 1 1 i j k (edgeEndpoints e).2).2.1) ∧
      (min (cornerPos (1 : ℚ) 1 1 i j k (edgeEndpoints e).1).2.2
          (cornerPos (1 : ℚ) 1 1 i j k (edgeEndpoints e).2).2.2 ≤
            (edgeVertex testVol 0 1 1 1 0 0 0 0).2.2 ∧
        (edgeVertex testVol 0 1 1 1 0 0 0 0).2.2 ≤
          max (cornerPos (1 : ℚ) 1 1 i j k (edgeEndpoints e).1).2.2
            (cornerPos (1 : ℚ) 1 1 i j k (edgeEndpoints e).2).2.2) :=
  extraction_no_extrapolation 2 testVol 0 1 1 1
    (edgeVertex testVol 0 1 1 1 0 0 0 0) testVol_vertex_mem

theorem reflectIdx_self (n i : ℕ) (h : i < n) : reflectIdx n (i : ℤ) = i := by
  simp only [reflectIdx]
  have h0 : (0 : ℤ) ≤ (i : ℤ) := Int.natCast_nonneg i
  have h1 : (i : ℤ) < 2 * (n : ℤ) := by exact_mod_cast (by omega : i < 2 * n)
  rw [Int.emod_eq_of_lt h0 h1, if_pos (by exact_mod_cast h)]
  simp

theorem gw_zero_sigma : gweight 0 0 = 1 := by
  rw [gweight]
  norm_num

theorem kernelSum_zero : kernelSum 0 = 1 := by
  rw [kernelSum, kernelRadius_zero]
  norm_num [Finset.sum_range_one, gw_zero_sigma]

theorem smoothX_zero_sigma (n : ℕ) (v : ℕ → ℕ → ℕ → ℝ) (i j k : ℕ)
    (h : i < n) : smoothX 0 n v i j k = v i j k := by
  simp only [smoothX, kernelRadius_zero, kernelSum_zero]
  norm_num [Finset.sum_range_one, gw_zero_sigma, reflectIdx_self n i h]

theorem smoothY_zero_sigma (n : ℕ) (v : ℕ → ℕ → ℕ → ℝ) (i j k : ℕ)
    (h : j < n) : smoothY 0 n v i j k = v i j k := by
  simp only [smoothY, kernelRadius_zero, kernelSum_zero]
  norm_num [Finset.sum_range_one, gw_zero_sigma, reflectIdx_self n j h]

theorem smoothZ_zero_sigma (n : ℕ) (v : ℕ → ℕ → ℕ → ℝ) (i j k : ℕ)
    (h : k < n) : smoothZ 0 n v i j k = v i j k := by
  simp only [smoothZ, kernelRadius_zero, kernelSum_zero]
  norm_num [Finset.sum_range_one, gw_zero_sigma, reflectIdx_self n k h]

/-- C8 (amended): the smoother at sigma 0 is a no-op pass-through, but the
pipeline's smoothing sigma is not externally tunable: the volume handed to
the extractor is always the sample smoothed at the hard-coded sigma 0.5
(which genuinely changes the sampled volume; see the counterexample). -/
theorem smoothing_sigma_fixed :
    (∀ (vol : ScalarVolume) (i j k : ℕ), i < vol.n → j < vol.n → k < vol.n →
      (gaussianSmooth 0 vol).val i j k = vol.val i j k) ∧
    (∀ (resolution : ℕ) (lo hi : ℝ), preExtractionVolume resolution lo hi =
      gaussianSmooth (1 / 2) (sampleVolume resolution lo hi)) := by
  refine ⟨?_, fun _ _ _ => rfl⟩
  intro vol i j k hi hj hk
  show smoothZ 0 vol.n (smoothY 0 vol.n (smoothX 0 vol.n vol.val)) i j k = _
  rw [smoothZ_zero_sigma vol.n _ i j k hk, smoothY_zero_sigma vol.n _ i j k hj,
    smoothX_zero_sigma vol.n _ i j k hi]

/-- Witness for C8 (amended) at a concrete volume. -/
theorem smoothing_sigma_fixed_witness :
    (gaussianSmooth 0 (sampleVolume 2 0 0)).val 0 0 0 =
      (sampleVolume 2 0 0).val 0 0 0 ∧
    preExtractionVolume 2 0 0 = gaussianSmooth (1 / 2) (sampleVolume 2 0 0) :=
  ⟨smoothing_sigma_fixed.1 (sampleVolume 2 0 0) 0 0 0 Nat.zero_lt_two
      Nat.zero_lt_two Nat.zero_lt_two,
   smoothing_sigma_fixed.2 2 0 0⟩

/-- C8 counterexample: the pipeline's pre-extraction volume differs from the
raw sampled volume (the hard-coded sigma-0.5 smoothing really changes it),
so no sigma = 0 pass-through invocation of the pipeline exists. -/
theorem sigma_not_tunable_counterexample :
    (preExtractionVolume 2 0 (Real.pi / 2)).val 0 0 0 ≠
      (sampleVolume 2 0 (Real.pi / 2)).val 0 0 0 := by
  rw [smv000, fkv000]
  exact ne_of_gt A_pos

theorem toTriples_length : ∀ l : List ℕ, 3 * (toTriples l).length ≤ l.length
  | [] => by simp [toTriples]
  | [a] => by simp [toTriples]
  | [a, b] => by simp [toTriples]
  | a :: b :: c :: rest => by
      simp only [toTriples, List.length_cons]
      have := toTriples_length rest
      omega

theorem tbl_length_le : ∀ cfg < 256, (tbl cfg).length ≤ 15 := by decide

theorem cubeFacesLocal_length_le (cfg : ℕ) : (cubeFacesLocal cfg).length ≤ 5 := by
  rw [cubeFacesLocal, List.length_map]
  by_cases hc : cfg < 256
  · have hrow := tbl_length_le cfg hc
    have h3 := toTriples_length (tbl cfg)
    omega
  · rw [tbl_big cfg (by omega)]
    simp [toTriples]

/-- C9: resolution 2 on [-1, 1] does not fail: generation succeeds, exactly
one cube is processed, and at most 5 triangles (the per-configuration
maximum of the standard table) are produced. -/
theorem boundary_resolution_two :
    isOk (generate_surface 2 (-1) 1 0) = true ∧
    (cubesList 2).length = 1 ∧
    facesCount (generate_surface 2 (-1) 1 0) ≤ 5 := by
  have h := generate_surface_eq 2 (-1) 1 0 (by norm_num)
  refine ⟨by rw [h]; rfl, by decide, ?_⟩
  rw [h]
  simp only [facesCount, translateMesh, marchingCubes, cubesList_two,
    mcFacesAux, List.append_nil, List.length_map]
  exact cubeFacesLocal_length_le _
